import Mathlib

/-!
# Astra core compatibility library (`src/astra/core/compat.c`)

A shallow embedding of the libc fallbacks `strnlen` / `strndup` and of the
descriptor factory `cx_accept`, `cx_mkstemp`, `cx_open`, `cx_socket`.

Conventions of the embedding
* A `const char *` is the memory it points to: a total map from byte offsets
  to byte values (`Nat → Nat`).
* Preprocessor conditionals are decided by a `Config` record.
* Operating system primitives act on an explicit `OS` state; the result of the
  k-th primitive call is supplied by an oracle, so every theorem that
  quantifies over the state quantifies over every outcome of every call.
* `pread` and `cx_IsProcessInJob` carry no statement below and are not
  embedded.
-/

namespace Astra

/-! ## String compatibility -/

/-- Scan of `memchr`: looks at offsets `i, i+1, ..., i+n-1` of `s` in order and
yields the first offset holding the byte `c`. -/
def memchr_from (s : Nat → Nat) (c : Nat) : Nat → Nat → Option Nat
  | _, 0 => none
  | i, n + 1 => if s i = c then some i else memchr_from s c (i + 1) n

/-- C library `memchr(s, c, n)`: the offset of the first occurrence of `c` in
the first `n` bytes of `s`, `none` standing for the null pointer. -/
def memchr (s : Nat → Nat) (c : Nat) (n : Nat) : Option Nat :=
  memchr_from s c 0 n

/-- Fallback `strnlen` (compat.c lines 52-56):
`end = memchr(str, 0, max); return end ? (size_t)(end - str) : max;` -/
def strnlen (str : Nat → Nat) (max : Nat) : Nat :=
  match memchr str 0 max with
  | some e => e
  | none => max

/-- C library `malloc(n)`: `heap = none` is allocation failure; otherwise the
block has `n` bytes whose initial contents are whatever `heap` holds. -/
def malloc (heap : Option (Nat → Nat)) (n : Nat) : Option (List Nat) :=
  heap.map (fun junk => (List.range n).map junk)

/-- C library `memcpy(dst, src, n)`: the first `n` bytes of `dst` are replaced
by those of `src`. -/
def memcpy (dst : List Nat) (src : Nat → Nat) (n : Nat) : List Nat :=
  (List.range dst.length).map (fun i => if i < n then src i else dst.getD i 0)

/-- Fallback `strndup` (compat.c lines 38-48). `w` is the width of `size_t`,
so the argument of `malloc` is `len + 1` reduced modulo `2 ^ w`. The null
pointer is `none`; otherwise the result is the content of the new block. -/
def strndup (w : Nat) (heap : Option (Nat → Nat)) (str : Nat → Nat) (max : Nat) :
    Option (List Nat) :=
  let len := strnlen str max
  match malloc heap ((len + 1) % 2 ^ w) with
  | some res => some ((memcpy res str len).set len 0)
  | none => none

/-- The memory holding the C string with the bytes `bs`: the bytes, then the
terminator, then whatever `rest` holds. -/
def cstr (bs : List Nat) (rest : Nat → Nat) : Nat → Nat :=
  fun i => if i < bs.length then bs.getD i 0
           else if i = bs.length then 0 else rest (i - bs.length - 1)

/-- ASCII bytes of "hello". -/
def hello : List Nat := [104, 101, 108, 108, 111]

/-- ASCII bytes of "hi". -/
def hi : List Nat := [104, 105]

/-! ## Platform configuration

Everything `compat.c` takes from the build configuration and the system
headers: the feature tests of its preprocessor conditionals and the values of
the flag and error constants. A flag that the platform may leave undefined is
an `Option`. -/

/-- Build configuration and header constants. -/
structure Config where
  /-- `_WIN32` is defined. -/
  _WIN32 : Bool
  HAVE_ACCEPT4 : Bool
  HAVE_MKOSTEMP : Bool
  HAVE_MKSTEMP : Bool
  HAVE_MKTEMP : Bool
  SOCK_CLOEXEC : Option Nat
  O_CLOEXEC : Option Nat
  _O_BINARY : Option Nat
  O_CREAT : Nat
  O_WRONLY : Nat
  O_TRUNC : Nat
  O_EXCL : Nat
  WSA_FLAG_NO_HANDLE_INHERIT : Nat
  ENOTSUP : Int
  EEXIST : Int
  ENOENT : Int

/-- Owner read permission bit (value fixed by POSIX). -/
def S_IRUSR : Nat := 0o400
/-- Owner write permission bit (value fixed by POSIX). -/
def S_IWUSR : Nat := 0o200
/-- Group read permission bit (value fixed by POSIX). -/
def S_IRGRP : Nat := 0o040
/-- Others read permission bit (value fixed by POSIX). -/
def S_IROTH : Nat := 0o004
/-- All group permission bits (value fixed by POSIX). -/
def S_IRWXG : Nat := 0o070
/-- All others permission bits (value fixed by POSIX). -/
def S_IRWXO : Nat := 0o007

/-- A flag constant is usable when its macro is defined with a non-zero value. -/
def flagOk : Option Nat → Prop
  | some b => b ≠ 0
  | none => True

/-- The constants that request a non-inheritable descriptor are not zero. -/
def Config.WellFormed (cfg : Config) : Prop :=
  flagOk cfg.SOCK_CLOEXEC ∧ flagOk cfg.O_CLOEXEC ∧ cfg.WSA_FLAG_NO_HANDLE_INHERIT ≠ 0

/-- Does `flags` contain a bit of the (possibly undefined) flag `f`? -/
def hasFlag (f : Option Nat) (flags : Nat) : Bool :=
  match f with
  | some b => decide (flags &&& b ≠ 0)
  | none => false

/-! ## Operating system model -/

/-- One call of an operating system or C library primitive, with its
arguments. Pointers that are only passed through (`addr`, `addrlen`) are kept
as plain numbers. -/
inductive Call where
  | accept4 (sockfd : Int) (addr addrlen : Nat) (flags : Nat)
  | accept (sockfd : Int) (addr addrlen : Nat)
  /-- `SetHandleInformation(ASC_TO_HANDLE(fd), HANDLE_FLAG_INHERIT, 0)` -/
  | SetHandleInformation (fd : Int)
  | closesocket (fd : Int)
  /-- `fcntl(fd, F_SETFD, FD_CLOEXEC)` -/
  | fcntl (fd : Int)
  | close (fd : Int)
  | mkostemp (tpl : String) (flags : Nat)
  | mkstemp (tpl : String)
  | mktemp (tpl : String)
  /-- `open(path, flags, mode)` -/
  | sys_open (path : String) (flags mode : Nat)
  /-- `WSASocket(family, type, protocol, NULL, 0, flags)` -/
  | WSASocket (family : Int) (type : Nat) (protocol : Int) (flags : Nat)
  | socket (family : Int) (type : Nat) (protocol : Int)
  deriving DecidableEq, Repr

/-- What a primitive answers: success, with the descriptor number for a
creating primitive and the generated name for `mktemp`, or failure with the
error code it stores. -/
inductive Outcome where
  | ok (fd : Nat) (name : String)
  | err (errno : Int)
  deriving DecidableEq, Repr

/-- A logged call together with what it answered. -/
structure Event where
  call : Call
  ret : Outcome
  deriving DecidableEq, Repr

/-- A file: permission bits and length. -/
structure File where
  mode : Nat
  size : Nat
  deriving DecidableEq, Repr

/-- State of the process and its environment.
* `fds n = none`: descriptor `n` is not open; `fds n = some c`: it is open and
  its close-on-exec (non-inheritable) property is `c`.
* `files`: the files `open` can reach, `umask` the file creation mask.
* `errno`: the error code register (`errno`, or the last-error value on
  Windows).
* `log`: every primitive called so far, oldest first.
* `oracle k`: what the k-th primitive call answers. -/
structure OS where
  fds : Nat → Option Bool
  files : String → Option File
  umask : Nat
  errno : Int
  log : List Event
  oracle : Nat → Outcome

/-- Answer of the next primitive call. -/
def OS.answer (s : OS) : Outcome := s.oracle s.log.length

/-- Log a call; a failing call stores its code in the error register, a
successful one leaves the register alone. -/
def OS.record (s : OS) (c : Call) (o : Outcome) : OS :=
  { s with
    log := s.log ++ [⟨c, o⟩]
    errno := match o with
      | .err e => e
      | .ok _ _ => s.errno }

/-- Change the table entry of descriptor `fd` (nothing for a negative `fd`). -/
def OS.setFd (s : OS) (fd : Int) (f : Option Bool → Option Bool) : OS :=
  { s with fds := fun k => if (k : Int) = fd then f (s.fds k) else s.fds k }

/-- Replace the files. -/
def OS.setFiles (s : OS) (files : String → Option File) : OS :=
  { s with files := files }

/-- Is descriptor `fd` open, and with which close-on-exec property? -/
def OS.fd (s : OS) (fd : Int) : Option Bool :=
  if 0 ≤ fd then s.fds fd.toNat else none

/-- A primitive that creates a descriptor: on success the new descriptor is
open with close-on-exec property `cloexec`; on failure it returns -1. -/
def sys_create (c : Call) (cloexec : Bool) (s : OS) : Int × OS :=
  match s.answer with
  | .ok v _ => ((v : Int), (s.record c (.ok v "")).setFd v (fun _ => some cloexec))
  | .err e => (-1, s.record c (.err e))

/-- `accept4(sockfd, addr, addrlen, flags)`: the descriptor is close-on-exec
when `flags` has `SOCK_CLOEXEC`. -/
def accept4 (cfg : Config) (sockfd : Int) (addr addrlen flags : Nat) (s : OS) : Int × OS :=
  sys_create (.accept4 sockfd addr addrlen flags) (hasFlag cfg.SOCK_CLOEXEC flags) s

/-- `accept(sockfd, addr, addrlen)`: the descriptor is inheritable. -/
def accept (sockfd : Int) (addr addrlen : Nat) (s : OS) : Int × OS :=
  sys_create (.accept sockfd addr addrlen) false s

/-- `socket(family, type, protocol)`: the descriptor is close-on-exec when
`type` has `SOCK_CLOEXEC`. -/
def socket (cfg : Config) (family : Int) (type : Nat) (protocol : Int) (s : OS) : Int × OS :=
  sys_create (.socket family type protocol) (hasFlag cfg.SOCK_CLOEXEC type) s

/-- `WSASocket(family, type, protocol, NULL, 0, flags)`: the handle is
non-inheritable when `flags` has `WSA_FLAG_NO_HANDLE_INHERIT`. -/
def WSASocket (cfg : Config) (family : Int) (type : Nat) (protocol : Int) (flags : Nat)
    (s : OS) : Int × OS :=
  sys_create (.WSASocket family type protocol flags)
    (decide (flags &&& cfg.WSA_FLAG_NO_HANDLE_INHERIT ≠ 0)) s

/-- `mkostemp(tpl, flags)`: the descriptor is close-on-exec when `flags` has
`O_CLOEXEC`. -/
def mkostemp (cfg : Config) (tpl : String) (flags : Nat) (s : OS) : Int × OS :=
  sys_create (.mkostemp tpl flags) (hasFlag cfg.O_CLOEXEC flags) s

/-- `mkstemp(tpl)`: the descriptor is inheritable. -/
def mkstemp (tpl : String) (s : OS) : Int × OS :=
  sys_create (.mkstemp tpl) false s

/-- `mktemp(tpl)`: the generated name, or `none` for the null pointer. The
name is whatever the environment answers; nothing is created. -/
def mktemp (tpl : String) (s : OS) : Option String × OS :=
  match s.answer with
  | .ok _ n => (some n, s.record (.mktemp tpl) (.ok 0 n))
  | .err e => (none, s.record (.mktemp tpl) (.err e))

/-- A primitive that sets the non-inheritable property of an open descriptor
(`fcntl(fd, F_SETFD, FD_CLOEXEC)`, `SetHandleInformation`): `true` on
success. -/
def sys_setflag (c : Call) (fd : Int) (s : OS) : Bool × OS :=
  match s.answer with
  | .ok _ _ => (true, (s.record c (.ok 0 "")).setFd fd (fun o => o.map (fun _ => true)))
  | .err e => (false, s.record c (.err e))

/-- `fcntl(fd, F_SETFD, FD_CLOEXEC)`: 0 on success, -1 on failure. -/
def fcntl (fd : Int) (s : OS) : Int × OS :=
  let r := sys_setflag (.fcntl fd) fd s
  (if r.1 then 0 else -1, r.2)

/-- `SetHandleInformation(ASC_TO_HANDLE(fd), HANDLE_FLAG_INHERIT, 0)`:
non-zero on success, 0 on failure. -/
def SetHandleInformation (fd : Int) (s : OS) : Int × OS :=
  let r := sys_setflag (.SetHandleInformation fd) fd s
  (if r.1 then 1 else 0, r.2)

/-- A primitive that releases a descriptor (`close`, `closesocket`). The
descriptor is released whether or not the call reports an error, as Linux,
the BSDs and Windows do; a reported error is stored in the error register. -/
def sys_release (c : Call) (fd : Int) (s : OS) : Int × OS :=
  match s.answer with
  | .ok _ _ => (0, (s.record c (.ok 0 "")).setFd fd (fun _ => none))
  | .err e => (-1, (s.record c (.err e)).setFd fd (fun _ => none))

/-- `close(fd)`. -/
def close (fd : Int) (s : OS) : Int × OS := sys_release (.close fd) fd s

/-- `closesocket(fd)`. -/
def closesocket (fd : Int) (s : OS) : Int × OS := sys_release (.closesocket fd) fd s

/-- `mode & ~umask`. -/
def applyUmask (mode umask : Nat) : Nat := mode ^^^ (mode &&& umask)

/-- The error with which `open(path, flags, ...)` is refused on account of
the file's existence (POSIX): `O_CREAT | O_EXCL` on an existing file is
`EEXIST`, a missing file without `O_CREAT` is `ENOENT`. -/
def openRefusal (cfg : Config) (path : String) (flags : Nat) (s : OS) : Option Int :=
  match s.files path with
  | some _ =>
    if flags &&& cfg.O_CREAT ≠ 0 ∧ flags &&& cfg.O_EXCL ≠ 0 then some cfg.EEXIST else none
  | none =>
    if flags &&& cfg.O_CREAT = 0 then some cfg.ENOENT else none

/-- The files after a successful `open(path, flags, mode)` (POSIX): a missing
file is created empty with permissions `mode & ~umask`; an existing file keeps
its permissions and is truncated to length 0 when `flags` has `O_TRUNC`. -/
def openFiles (cfg : Config) (path : String) (flags mode : Nat) (s : OS) :
    String → Option File :=
  match s.files path with
  | some f =>
    if flags &&& cfg.O_TRUNC ≠ 0 then
      fun p => if p = path then some ⟨f.mode, 0⟩ else s.files p
    else s.files
  | none => fun p => if p = path then some ⟨applyUmask mode s.umask, 0⟩ else s.files p

/-- `open(path, flags, mode)`: refused as `openRefusal` says; otherwise the
environment decides, and on success the files change as `openFiles` says and
the new descriptor is close-on-exec when `flags` has `O_CLOEXEC`. -/
def sys_open (cfg : Config) (path : String) (flags mode : Nat) (s : OS) : Int × OS :=
  match openRefusal cfg path flags s with
  | some e => (-1, s.record (.sys_open path flags mode) (.err e))
  | none =>
    let r := sys_create (.sys_open path flags mode) (hasFlag cfg.O_CLOEXEC flags) s
    if r.1 = -1 then r
    else (r.1, r.2.setFiles (openFiles cfg path flags mode s))

/-! ## Descriptor factory (compat.c lines 84-238) -/

/-- The POSIX fixup that ends `cx_accept`, `cx_mkstemp` (mkstemp branch),
`cx_open` (no `O_CLOEXEC`) and `cx_socket`:
`if (fcntl(fd, F_SETFD, FD_CLOEXEC) != 0) { close(fd); fd = -1; } return fd;` -/
def fixup_fcntl (fd : Int) (s : OS) : Int × OS :=
  let r := fcntl fd s
  if r.1 ≠ 0 then (-1, (close fd r.2).2) else (fd, r.2)

/-- The Windows fixup that ends `cx_accept` and `cx_socket`:
`if (!SetHandleInformation(sock, HANDLE_FLAG_INHERIT, 0)) { closesocket(fd); fd = -1; } return fd;` -/
def fixup_handle (fd : Int) (s : OS) : Int × OS :=
  let r := SetHandleInformation fd s
  if r.1 = 0 then (-1, (closesocket fd r.2).2) else (fd, r.2)

/-- Lines 98-118 of `cx_accept`: plain `accept`, then the fixup. -/
def cx_accept_plain (cfg : Config) (sockfd : Int) (addr addrlen : Nat) (s : OS) : Int × OS :=
  let r := accept sockfd addr addrlen s
  if r.1 = -1 then r
  else if cfg._WIN32 then fixup_handle r.1 r.2
  else fixup_fcntl r.1 r.2

/-- `int cx_accept(int sockfd, struct sockaddr *addr, socklen_t *addrlen)`
(lines 84-119). -/
def cx_accept (cfg : Config) (sockfd : Int) (addr addrlen : Nat) (s : OS) : Int × OS :=
  match (if cfg.HAVE_ACCEPT4 then cfg.SOCK_CLOEXEC else none) with
  | some sc =>
    let r := accept4 cfg sockfd addr addrlen sc s
    if r.1 ≠ -1 then r
    else cx_accept_plain cfg sockfd addr addrlen r.2
  | none => cx_accept_plain cfg sockfd addr addrlen s

/-- Lines 171-194 of `cx_open`, once the local `mode` has its value. -/
def cx_open_body (cfg : Config) (path : String) (flags mode : Nat) (s : OS) : Int × OS :=
  let flags := match cfg._O_BINARY with
    | some b => flags ||| b
    | none => flags
  match cfg.O_CLOEXEC with
  | some oc => sys_open cfg path (flags ||| oc) mode s
  | none =>
    let r := sys_open cfg path flags mode s
    if r.1 = -1 then r
    else fixup_fcntl r.1 r.2

/-- `int cx_open(const char *path, int flags, ...)` (lines 159-195). `va` is
the variadic slot: `none` when the caller passed nothing after `flags`.
`va_arg` on an absent slot is undefined behaviour, which is the result
`none`. -/
def cx_open (cfg : Config) (path : String) (flags : Nat) (va : Option Nat) (s : OS) :
    Option (Int × OS) :=
  if flags &&& cfg.O_CREAT ≠ 0 then
    match va with
    | some mode => some (cx_open_body cfg path flags mode s)
    | none => none
  else some (cx_open_body cfg path flags 0 s)

/-- `int cx_mkstemp(char *tpl)` (lines 121-157). The result is `none` only
if the call of `cx_open` is undefined. -/
def cx_mkstemp (cfg : Config) (tpl : String) (s : OS) : Option (Int × OS) :=
  match (if cfg.HAVE_MKOSTEMP then cfg.O_CLOEXEC else none) with
  | some oc => some (mkostemp cfg tpl oc s)
  | none =>
    if cfg.HAVE_MKSTEMP then
      let r := mkstemp tpl s
      if r.1 = -1 then some (-1, r.2)
      else some (fixup_fcntl r.1 r.2)
    else if cfg.HAVE_MKTEMP then
      let t := mktemp tpl s
      match t.1 with
      | none => some (-1, t.2)
      | some tmp =>
        let flags := cfg.O_CREAT ||| cfg.O_WRONLY ||| cfg.O_TRUNC
        let mode := S_IRUSR ||| S_IWUSR ||| S_IRGRP ||| S_IROTH
        match cx_open cfg tmp flags (some mode) t.2 with
        | some r => if r.1 = -1 then some (-1, r.2) else some r
        | none => none
    else some (-1, { s with errno := cfg.ENOTSUP })

/-- Lines 226-237 of `cx_socket`: plain `socket`, then the fixup. -/
def cx_socket_plain (cfg : Config) (family : Int) (type : Nat) (protocol : Int) (s : OS) :
    Int × OS :=
  let r := socket cfg family type protocol s
  if r.1 = -1 then r
  else fixup_fcntl r.1 r.2

/-- `int cx_socket(int family, int type, int protocol)` (lines 197-238). -/
def cx_socket (cfg : Config) (family : Int) (type : Nat) (protocol : Int) (s : OS) : Int × OS :=
  if cfg._WIN32 then
    let r := WSASocket cfg family type protocol cfg.WSA_FLAG_NO_HANDLE_INHERIT s
    if r.1 ≠ -1 then r
    else
      let r2 := WSASocket cfg family type protocol 0 r.2
      if r2.1 = -1 then r2
      else fixup_handle r2.1 r2.2
  else
    match cfg.SOCK_CLOEXEC with
    | some sc =>
      let r := socket cfg family (type ||| sc) protocol s
      if r.1 ≠ -1 then r
      else cx_socket_plain cfg family type protocol r.2
    | none => cx_socket_plain cfg family type protocol s

/-! ## Vocabulary of the statements -/

/-- The primitive calls made between state `s` and the later state `s2`. -/
def newEvents (s s2 : OS) : List Event := s2.log.drop s.log.length

/-- Primitives that hand out a new descriptor. -/
def Call.isCreate : Call → Bool
  | .accept4 .. => true
  | .accept .. => true
  | .mkostemp .. => true
  | .mkstemp .. => true
  | .sys_open .. => true
  | .WSASocket .. => true
  | .socket .. => true
  | _ => false

/-- The descriptor a fixup call (`fcntl`, `SetHandleInformation`) works on. -/
def Call.fixupOf : Call → Option Int
  | .fcntl fd => some fd
  | .SetHandleInformation fd => some fd
  | _ => none

/-- Did the logged call fail? -/
def Event.failed (ev : Event) : Bool :=
  match ev.ret with
  | .err _ => true
  | .ok _ _ => false

/-- The descriptors handed out by the successful creating calls of a log. -/
def createdFds : List Event → List Int
  | [] => []
  | ev :: rest =>
    match ev.ret with
    | .ok v _ => if ev.call.isCreate then (v : Int) :: createdFds rest else createdFds rest
    | .err _ => createdFds rest

/-- The error code stored by the last failing call of a log, if any call
failed. -/
def lastErr : List Event → Option Int
  | [] => none
  | ev :: rest =>
    match lastErr rest with
    | some e => some e
    | none =>
      match ev.ret with
      | .err e => some e
      | .ok _ _ => none

/-- The three strategies of `cx_mkstemp`. -/
inductive Tier where
  | mkostemp
  | mkstemp
  | mktemp
  deriving DecidableEq, Repr

/-- The strategy a primitive call belongs to: `mkostemp` to the first,
`mkstemp` and the fixup calls to the second, `mktemp` and `open` to the
third. -/
def Call.tier : Call → Option Tier
  | .mkostemp .. => some .mkostemp
  | .mkstemp .. => some .mkstemp
  | .mktemp .. => some .mktemp
  | .sys_open .. => some .mktemp
  | _ => none

/-- The strategy selection as the specification words it: the first available
of (1) `mkostemp` with `O_CLOEXEC`, (2) `mkstemp`, (3) `mktemp`; none when no
strategy is available. -/
def spec_tier (cfg : Config) : Option Tier :=
  if cfg.HAVE_MKOSTEMP = true ∧ cfg.O_CLOEXEC ≠ none then some .mkostemp
  else if cfg.HAVE_MKSTEMP = true then some .mkstemp
  else if cfg.HAVE_MKTEMP = true then some .mktemp
  else none

/-- The flags `cx_open` hands to `open` for the caller's `flags`: `_O_BINARY`
and `O_CLOEXEC` are added where the platform defines them. -/
def openFlags (cfg : Config) (flags : Nat) : Nat :=
  flags ||| cfg._O_BINARY.getD 0 ||| cfg.O_CLOEXEC.getD 0

/-- A call of the `open` primitive. -/
def Call.isOpen : Call → Bool
  | .sys_open .. => true
  | _ => false

/-- A result that is not the failure marker names an open descriptor with the
close-on-exec property. -/
def Safe (r : Int × OS) : Prop := r.1 ≠ -1 → r.2.fd r.1 = some true

/-- Leak freedom of a run from `s` to the result `r`:
* on a failure return, no descriptor handed out during the run is open;
* whenever a fixup call of the run failed, the run returns the failure marker
  and the descriptor the fixup worked on, which was handed out during the run,
  is not open. -/
def LeakFree (s : OS) (r : Int × OS) : Prop :=
  (r.1 = -1 → ∀ fd ∈ createdFds (newEvents s r.2), r.2.fd fd = none) ∧
  (∀ ev ∈ newEvents s r.2, ∀ fd, ev.call.fixupOf = some fd → ev.failed = true →
    r.1 = -1 ∧ fd ∈ createdFds (newEvents s r.2) ∧ r.2.fd fd = none)

/-- On a failure return the error register holds the code stored by the last
call of the run that failed. -/
def ReportsLast (s : OS) (r : Int × OS) : Prop :=
  r.1 = -1 → lastErr (newEvents s r.2) = some r.2.errno

/-- The three properties together, and the log only grows. -/
def Props (cfg : Config) (s : OS) (r : Int × OS) : Prop :=
  (cfg.WellFormed → Safe r) ∧ LeakFree s r ∧ ReportsLast s r ∧
    r.2.log = s.log ++ newEvents s r.2

/-- The properties of a run of `cx_mkstemp`: as `Props`, except that without
any strategy the failure code is `ENOTSUP`. -/
def MkstempProps (cfg : Config) (s : OS) (r : Int × OS) : Prop :=
  (cfg.WellFormed → Safe r) ∧ LeakFree s r ∧
  (r.1 = -1 →
    (spec_tier cfg = none ∧ r.2.errno = cfg.ENOTSUP) ∨
    (spec_tier cfg ≠ none ∧ lastErr (newEvents s r.2) = some r.2.errno)) ∧
  r.2.log = s.log ++ newEvents s r.2

/-- The first primitive call of each strategy of `cx_mkstemp` on `tpl`. -/
def tierCall (cfg : Config) (tpl : String) : Tier → Call
  | .mkostemp => .mkostemp tpl (cfg.O_CLOEXEC.getD 0)
  | .mkstemp => .mkstemp tpl
  | .mktemp => .mktemp tpl

/-- The fixup call `cx_accept` makes on descriptor `fd`:
`SetHandleInformation` on Windows, `fcntl` elsewhere. -/
def fixupCall (cfg : Config) (fd : Int) : Call :=
  if cfg._WIN32 then .SetHandleInformation fd else .fcntl fd

/-- The releasing call `cx_accept` makes on descriptor `fd`: `closesocket` on
Windows, `close` elsewhere. -/
def releaseCall (cfg : Config) (fd : Int) : Call :=
  if cfg._WIN32 then .closesocket fd else .close fd

/-- The run from `s` to the result `r` returns the failure marker, leaves
descriptor `v` not open, and made exactly the primitive calls `calls`, in this
order. -/
def FailsClosed (s : OS) (r : Int × OS) (v : Nat) (calls : List Call) : Prop :=
  r.1 = -1 ∧ r.2.fd v = none ∧ (newEvents s r.2).map Event.call = calls

/-! ## Sample platforms and states -/

/-- A current Linux: every atomic primitive is there. -/
def linux : Config :=
  { _WIN32 := false, HAVE_ACCEPT4 := true, HAVE_MKOSTEMP := true, HAVE_MKSTEMP := true,
    HAVE_MKTEMP := true, SOCK_CLOEXEC := some 0o2000000, O_CLOEXEC := some 0o2000000,
    _O_BINARY := none, O_CREAT := 0o100, O_WRONLY := 1, O_TRUNC := 0o1000, O_EXCL := 0o200,
    WSA_FLAG_NO_HANDLE_INHERIT := 0x80, ENOTSUP := 95, EEXIST := 17, ENOENT := 2 }

/-- A POSIX system without any atomic primitive and with `mktemp` only. -/
def legacy : Config :=
  { linux with HAVE_ACCEPT4 := false, HAVE_MKOSTEMP := false, HAVE_MKSTEMP := false,
               SOCK_CLOEXEC := none, O_CLOEXEC := none }

/-- A Windows build (MinGW constants). -/
def windows : Config :=
  { _WIN32 := true, HAVE_ACCEPT4 := false, HAVE_MKOSTEMP := false, HAVE_MKSTEMP := false,
    HAVE_MKTEMP := true, SOCK_CLOEXEC := none, O_CLOEXEC := none,
    _O_BINARY := some 0x8000, O_CREAT := 0x100, O_WRONLY := 1, O_TRUNC := 0x200, O_EXCL := 0x400,
    WSA_FLAG_NO_HANDLE_INHERIT := 0x80, ENOTSUP := 129, EEXIST := 17, ENOENT := 2 }

/-- A platform with no temporary file primitive at all. -/
def bare : Config :=
  { legacy with HAVE_MKTEMP := false }

/-- The oracle that answers the calls with the entries of `l`, in order. -/
def script (l : List Outcome) : Nat → Outcome := fun k => l.getD k (.err 0)

/-- A fresh process: standard descriptors 0, 1, 2 open and inheritable, the
given files, file creation mask 022, empty log. -/
def boot (files : String → Option File) (oracle : Nat → Outcome) : OS :=
  { fds := fun k => if k < 3 then some false else none
    files := files
    umask := 0o022
    errno := 0
    log := []
    oracle := oracle }

/-- No file. -/
def noFiles : String → Option File := fun _ => none

/-- One file, `/tmp/astra.1a2b3c`, of 10 bytes with permissions 0600. -/
def oneFile : String → Option File :=
  fun p => if p = "/tmp/astra.1a2b3c" then some ⟨0o600, 10⟩ else none

/-- The sample run of the third strategy of `cx_mkstemp`: `mktemp` answers the
name `/tmp/astra.1a2b3c`, `open` hands out descriptor 5 and the fixup
succeeds. -/
def weakestRun (files : String → Option File) : Option (Int × OS) :=
  cx_mkstemp legacy "/tmp/astra.XXXXXX"
    (boot files (script [.ok 0 "/tmp/astra.1a2b3c", .ok 5 "", .ok 0 ""]))

/-! # Theorems -/

/-! ### Lemmas on `memchr` and `strnlen` -/

theorem memchr_from_some (s : Nat → Nat) (c : Nat) (n : Nat) :
    ∀ i e, memchr_from s c i n = some e →
      i ≤ e ∧ e < i + n ∧ s e = c ∧ ∀ j, i ≤ j → j < e → s j ≠ c := by
  induction n with
  | zero => intro i e h; simp [memchr_from] at h
  | succ n ih =>
    intro i e h
    unfold memchr_from at h
    by_cases hc : s i = c
    · simp [hc] at h
      subst h
      exact ⟨le_refl _, by omega, hc, fun j h1 h2 => by omega⟩
    · simp [hc] at h
      obtain ⟨h1, h2, h3, h4⟩ := ih (i + 1) e h
      refine ⟨by omega, by omega, h3, ?_⟩
      intro j hj1 hj2
      by_cases hji : j = i
      · subst hji; exact hc
      · exact h4 j (by omega) hj2

theorem memchr_from_none (s : Nat → Nat) (c : Nat) (n : Nat) :
    ∀ i, memchr_from s c i n = none → ∀ j, i ≤ j → j < i + n → s j ≠ c := by
  induction n with
  | zero => intro i _ j h1 h2; omega
  | succ n ih =>
    intro i h j h1 h2
    unfold memchr_from at h
    by_cases hc : s i = c
    · simp [hc] at h
    · simp [hc] at h
      by_cases hji : j = i
      · subst hji; exact hc
      · exact ih (i + 1) h j (by omega) (by omega)

/-- The value of `strnlen` is the first zero offset below `max`, if any. -/
theorem strnlen_first_zero (str : Nat → Nat) (max i : Nat) (hi : i < max)
    (hz : str i = 0) (hnz : ∀ j, j < i → str j ≠ 0) : strnlen str max = i := by
  unfold strnlen memchr
  cases h : memchr_from str 0 0 max with
  | none =>
    exact absurd hz (memchr_from_none str 0 max 0 h i (Nat.zero_le _) (by omega))
  | some e =>
    obtain ⟨_, _, h3, h4⟩ := memchr_from_some str 0 max 0 e h
    show e = i
    rcases Nat.lt_trichotomy e i with hlt | heq | hgt
    · exact absurd h3 (hnz e hlt)
    · exact heq
    · exact absurd hz (h4 i (Nat.zero_le _) hgt)

theorem strnlen_no_zero (str : Nat → Nat) (max : Nat)
    (hnz : ∀ j, j < max → str j ≠ 0) : strnlen str max = max := by
  unfold strnlen memchr
  cases h : memchr_from str 0 0 max with
  | none => rfl
  | some e =>
    obtain ⟨_, h2, h3, _⟩ := memchr_from_some str 0 max 0 e h
    exact absurd h3 (hnz e (by omega))

theorem strnlen_le (str : Nat → Nat) (max : Nat) : strnlen str max ≤ max := by
  unfold strnlen memchr
  cases h : memchr_from str 0 0 max with
  | none => exact le_refl _
  | some e =>
    obtain ⟨_, h2, _, _⟩ := memchr_from_some str 0 max 0 e h
    show e ≤ max
    omega

theorem strnlen_nonzero_below (str : Nat → Nat) (max : Nat) :
    ∀ j, j < strnlen str max → str j ≠ 0 := by
  unfold strnlen memchr
  cases h : memchr_from str 0 0 max with
  | none =>
    intro j hj
    exact memchr_from_none str 0 max 0 h j (Nat.zero_le _) (by simpa using hj)
  | some e =>
    obtain ⟨_, _, _, h4⟩ := memchr_from_some str 0 max 0 e h
    intro j hj
    exact h4 j (Nat.zero_le _) hj

theorem strnlen_zero_at (str : Nat → Nat) (max : Nat)
    (h : strnlen str max < max) : str (strnlen str max) = 0 := by
  unfold strnlen memchr at h ⊢
  cases hm : memchr_from str 0 0 max with
  | none => simp [hm] at h
  | some e =>
    obtain ⟨_, _, h3, _⟩ := memchr_from_some str 0 max 0 e hm
    exact h3

theorem strnlen_terminated (str : Nat → Nat) (max n : Nat)
    (hz : str n = 0) (hnz : ∀ j, j < n → str j ≠ 0) : strnlen str max = min n max := by
  by_cases hn : n < max
  · rw [strnlen_first_zero str max n hn hz hnz]; omega
  · rw [strnlen_no_zero str max (fun j hj => hnz j (by omega))]; omega

theorem strnlen_congr (str str2 : Nat → Nat) (max : Nat)
    (h : ∀ i, i < max → str i = str2 i) : strnlen str max = strnlen str2 max := by
  by_cases hlt : strnlen str max < max
  · symm
    apply strnlen_first_zero str2 max _ hlt
    · rw [← h _ hlt]; exact strnlen_zero_at str max hlt
    · intro j hj
      rw [← h j (by omega)]
      exact strnlen_nonzero_below str max j hj
  · have hmax : strnlen str max = max := le_antisymm (strnlen_le _ _) (by omega)
    rw [hmax]
    symm
    apply strnlen_no_zero
    intro j hj
    rw [← h j hj]
    exact strnlen_nonzero_below str max j (by omega)

theorem strndup_none (w : Nat) (heap : Option (Nat → Nat)) (str : Nat → Nat) (max : Nat) :
    strndup w heap str max = none ↔ heap = none := by
  unfold strndup malloc
  cases heap <;> simp

theorem strndup_some (w : Nat) (junk : Nat → Nat) (str : Nat → Nat) (max : Nat)
    (h : strnlen str max + 1 < 2 ^ w) :
    strndup w (some junk) str max = some ((List.range (strnlen str max)).map str ++ [0]) := by
  unfold strndup malloc memcpy
  simp only [Option.map_some', Nat.mod_eq_of_lt h, List.length_map, List.length_range]
  congr 1
  apply List.ext_getElem
  · simp
  · intro i h1 h2
    simp at h1
    by_cases hi : i = strnlen str max
    · subst hi
      simp
    · have : i < strnlen str max := by omega
      simp [List.getElem_set, List.getElem_append, this, hi, Ne.symm hi]

/-! ## Descriptor factory: lemmas -/

@[simp]
theorem record_log (s : OS) (c : Call) (o : Outcome) :
    (s.record c o).log = s.log ++ [⟨c, o⟩] := rfl
@[simp]
theorem record_fds (s : OS) (c : Call) (o : Outcome) : (s.record c o).fds = s.fds := rfl
@[simp]
theorem record_files (s : OS) (c : Call) (o : Outcome) :
    (s.record c o).files = s.files := rfl
@[simp]
theorem record_umask (s : OS) (c : Call) (o : Outcome) :
    (s.record c o).umask = s.umask := rfl
@[simp]
theorem record_oracle (s : OS) (c : Call) (o : Outcome) :
    (s.record c o).oracle = s.oracle := rfl
@[simp]
theorem record_errno_err (s : OS) (c : Call) (e : Int) :
    (s.record c (.err e)).errno = e := rfl
@[simp]
theorem record_errno_ok (s : OS) (c : Call) (v : Nat) (n : String) :
    (s.record c (.ok v n)).errno = s.errno := rfl
@[simp]
theorem record_fd (s : OS) (c : Call) (o : Outcome) (fd : Int) :
    (s.record c o).fd fd = s.fd fd := rfl
@[simp]
theorem setFd_log (s : OS) (fd : Int) (f : Option Bool → Option Bool) :
    (s.setFd fd f).log = s.log := rfl
@[simp]
theorem setFd_files (s : OS) (fd : Int) (f : Option Bool → Option Bool) :
    (s.setFd fd f).files = s.files := rfl
@[simp]
theorem setFd_umask (s : OS) (fd : Int) (f : Option Bool → Option Bool) :
    (s.setFd fd f).umask = s.umask := rfl
@[simp]
theorem setFd_errno (s : OS) (fd : Int) (f : Option Bool → Option Bool) :
    (s.setFd fd f).errno = s.errno := rfl
@[simp]
theorem setFd_oracle (s : OS) (fd : Int) (f : Option Bool → Option Bool) :
    (s.setFd fd f).oracle = s.oracle := rfl
@[simp]
theorem setFd_fd_self (s : OS) (v : Nat) (f : Option Bool → Option Bool) :
    (s.setFd v f).fd v = f (s.fd v) := by
  simp [OS.setFd, OS.fd]
@[simp]
theorem setFiles_fd (s : OS) (fl : String → Option File) (x : Int) :
    (s.setFiles fl).fd x = s.fd x := rfl
@[simp]
theorem setFiles_log (s : OS) (fl : String → Option File) :
    (s.setFiles fl).log = s.log := rfl
@[simp]
theorem setFiles_fds (s : OS) (fl : String → Option File) :
    (s.setFiles fl).fds = s.fds := rfl
@[simp]
theorem setFiles_errno (s : OS) (fl : String → Option File) :
    (s.setFiles fl).errno = s.errno := rfl
@[simp]
theorem setFiles_oracle (s : OS) (fl : String → Option File) :
    (s.setFiles fl).oracle = s.oracle := rfl
@[simp]
theorem setFiles_files (s : OS) (fl : String → Option File) :
    (s.setFiles fl).files = fl := rfl
@[simp]
theorem setFiles_umask (s : OS) (fl : String → Option File) :
    (s.setFiles fl).umask = s.umask := rfl
theorem setFd_fd_nat (s : OS) (v x : Nat) (f : Option Bool → Option Bool) :
    (s.setFd v f).fd x = if x = v then f (s.fd x) else s.fd x := by
  simp [OS.setFd, OS.fd]

theorem lor_land_self (a b : Nat) : (a ||| b) &&& b = b := by
  apply Nat.eq_of_testBit_eq
  intro i
  simp only [Nat.testBit_land, Nat.testBit_lor]
  cases a.testBit i <;> cases b.testBit i <;> rfl

/-- The result of `cx_open` once the variadic slot is given. -/
theorem cx_open_some (cfg : Config) (path : String) (flags mode : Nat) (s : OS) :
    cx_open cfg path flags (some mode) s =
      some (cx_open_body cfg path flags (if flags &&& cfg.O_CREAT ≠ 0 then mode else 0) s) := by
  unfold cx_open
  split_ifs <;> rfl

/-- Shape of `cx_mkstemp` in its third strategy. -/
theorem cx_mkstemp_third (cfg : Config) (tpl : String) (s : OS)
    (h1 : (if cfg.HAVE_MKOSTEMP then cfg.O_CLOEXEC else none) = none)
    (h2 : cfg.HAVE_MKSTEMP = false) (h3 : cfg.HAVE_MKTEMP = true) :
    cx_mkstemp cfg tpl s =
      match s.answer with
      | .err e => some (-1, s.record (.mktemp tpl) (.err e))
      | .ok _ n =>
        some (cx_open_body cfg n (cfg.O_CREAT ||| cfg.O_WRONLY ||| cfg.O_TRUNC)
          (if (cfg.O_CREAT ||| cfg.O_WRONLY ||| cfg.O_TRUNC) &&& cfg.O_CREAT ≠ 0
            then S_IRUSR ||| S_IWUSR ||| S_IRGRP ||| S_IROTH else 0)
          (s.record (.mktemp tpl) (.ok 0 n))) := by
  have hr : ∀ r : Int × OS, (if r.1 = -1 then some (-1, r.2) else some r) = some r := by
    intro r
    split_ifs with h
    · rw [← h]
    · rfl
  unfold cx_mkstemp
  rw [h1]
  simp only [h2, h3, Bool.false_eq_true, if_false, if_true, mktemp]
  cases s.answer with
  | err e => rfl
  | ok v n => simp only [cx_open_some, hr]

theorem cx_socket_props (cfg : Config) (family : Int) (type : Nat) (protocol : Int) (s : OS) :
    Props cfg s (cx_socket cfg family type protocol s) := by
  rcases a0 : s.oracle s.log.length with ⟨v0, n0⟩ | e0 <;>
  rcases a1 : s.oracle (s.log.length + 1) with ⟨v1, n1⟩ | e1 <;>
  rcases a2 : s.oracle (s.log.length + 2) with ⟨v2, n2⟩ | e2 <;>
  rcases a3 : s.oracle (s.log.length + 3) with ⟨v3, n3⟩ | e3 <;>
  cases hw : cfg._WIN32 <;> rcases hs : cfg.SOCK_CLOEXEC with _ | sc <;>
  simp [Props, Safe, LeakFree, ReportsLast, newEvents, createdFds, lastErr, Config.WellFormed,
    Call.isCreate, Call.fixupOf, Event.failed,
    cx_socket, cx_socket_plain, socket, WSASocket, fixup_handle, fixup_fcntl, fcntl,
    SetHandleInformation, sys_setflag, sys_create, close, closesocket, sys_release, OS.answer,
    a0, a1, a2, a3, hw, hs, hasFlag, flagOk, lor_land_self] <;> tauto

theorem newEvents_of_log (s s2 : OS) (l : List Event) (h : s2.log = s.log ++ l) :
    newEvents s s2 = l := by
  simp [newEvents, h]

theorem lastErr_cons_of_some (ev : Event) (l : List Event) (e : Int)
    (h : lastErr l = some e) : lastErr (ev :: l) = some e := by
  simp [lastErr, h]

/-- A property of a run that starts one call later carries over to the whole
run when that first call neither hands out a descriptor nor is a fixup. -/
theorem Props_prepend (cfg : Config) (s s1 : OS) (r : Int × OS) (ev : Event)
    (hlog : s1.log = s.log ++ [ev]) (hnc : createdFds [ev] = [])
    (hnf : ev.call.fixupOf = none) (h : Props cfg s1 r) : Props cfg s r := by
  obtain ⟨h1, ⟨h2, h3⟩, h4, h5⟩ := h
  have hN : newEvents s r.2 = ev :: newEvents s1 r.2 := by
    apply newEvents_of_log
    rw [h5, hlog]
    simp
  have hc : createdFds (ev :: newEvents s1 r.2) = createdFds (newEvents s1 r.2) := by
    simp only [createdFds] at hnc ⊢
    cases hr : ev.ret with
    | err e => simp
    | ok v n =>
      simp only [hr] at hnc ⊢
      split_ifs at hnc ⊢
      rfl
  refine ⟨h1, ⟨?_, ?_⟩, ?_, ?_⟩
  · rw [hN, hc]; exact h2
  · rw [hN, hc]
    intro e he fd hfd hfail
    rcases List.mem_cons.1 he with rfl | he
    · rw [hnf] at hfd; cases hfd
    · exact h3 e he fd hfd hfail
  · intro hr
    rw [hN]
    exact lastErr_cons_of_some _ _ _ (h4 hr)
  · rw [hN, h5, hlog]; simp

theorem cx_accept_plain_props (cfg : Config) (sockfd : Int) (addr addrlen : Nat) (s : OS) :
    Props cfg s (cx_accept_plain cfg sockfd addr addrlen s) := by
  rcases a0 : s.oracle s.log.length with ⟨v0, n0⟩ | e0 <;>
  rcases a1 : s.oracle (s.log.length + 1) with ⟨v1, n1⟩ | e1 <;>
  rcases a2 : s.oracle (s.log.length + 2) with ⟨v2, n2⟩ | e2 <;>
  cases hw : cfg._WIN32 <;>
  simp [Props, Safe, LeakFree, ReportsLast, newEvents, createdFds, lastErr,
    Call.isCreate, Call.fixupOf, Event.failed,
    cx_accept_plain, accept, fixup_handle, fixup_fcntl, fcntl,
    SetHandleInformation, sys_setflag, sys_create, close, closesocket, sys_release, OS.answer,
    a0, a1, a2, hw]

theorem cx_accept_props (cfg : Config) (sockfd : Int) (addr addrlen : Nat) (s : OS) :
    Props cfg s (cx_accept cfg sockfd addr addrlen s) := by
  unfold cx_accept
  rcases hs : (if cfg.HAVE_ACCEPT4 then cfg.SOCK_CLOEXEC else none) with _ | sc
  · exact cx_accept_plain_props cfg sockfd addr addrlen s
  · have hsc : cfg.SOCK_CLOEXEC = some sc := by
      cases ha : cfg.HAVE_ACCEPT4 <;> simp [ha] at hs
      exact hs
    rcases a0 : s.answer with ⟨v0, n0⟩ | e0
    · simp [Props, Safe, LeakFree, ReportsLast, newEvents, createdFds, lastErr,
        Config.WellFormed, Call.isCreate, Call.fixupOf, Event.failed, accept4, sys_create, a0,
        hasFlag, flagOk, hsc]
      tauto
    · have h1 : accept4 cfg sockfd addr addrlen sc s
          = (-1, s.record (.accept4 sockfd addr addrlen sc) (.err e0)) := by
        simp [accept4, sys_create, a0]
      simp only [h1, ne_eq, not_true_eq_false, if_false]
      exact Props_prepend cfg s _ _ ⟨.accept4 sockfd addr addrlen sc, .err e0⟩ rfl rfl rfl
        (cx_accept_plain_props cfg sockfd addr addrlen _)

theorem cx_open_body_props (cfg : Config) (path : String) (flags mode : Nat) (s : OS) :
    Props cfg s (cx_open_body cfg path flags mode s) := by
  rcases hb : cfg._O_BINARY with _ | ob <;> rcases hs : cfg.O_CLOEXEC with _ | oc <;>
  simp only [cx_open_body, sys_open, hb, hs] <;>
  rcases hr : openRefusal cfg path _ s with _ | er <;>
  rcases a0 : s.oracle s.log.length with ⟨v0, n0⟩ | e0 <;>
  rcases a1 : s.oracle (s.log.length + 1) with ⟨v1, n1⟩ | e1 <;>
  rcases a2 : s.oracle (s.log.length + 2) with ⟨v2, n2⟩ | e2 <;>
  simp [Props, Safe, LeakFree, ReportsLast, newEvents, createdFds, lastErr, Config.WellFormed,
    Call.isCreate, Call.fixupOf, Event.failed,
    fixup_fcntl, fcntl, sys_create, sys_setflag, close, sys_release, OS.answer,
    a0, a1, a2, hs, hasFlag, flagOk, lor_land_self] <;> tauto


theorem spec_tier_ne_none_of_third (cfg : Config) (h3 : cfg.HAVE_MKTEMP = true) :
    spec_tier cfg ≠ none := by
  unfold spec_tier
  split_ifs <;> simp

theorem cx_mkstemp_props (cfg : Config) (tpl : String) (s : OS) :
    ∃ r, cx_mkstemp cfg tpl s = some r ∧ MkstempProps cfg s r := by
  rcases h1 : (if cfg.HAVE_MKOSTEMP then cfg.O_CLOEXEC else none) with _ | oc
  · cases h2 : cfg.HAVE_MKSTEMP
    · cases h3 : cfg.HAVE_MKTEMP
      · refine ⟨(-1, { s with errno := cfg.ENOTSUP }), ?_, ?_⟩
        · unfold cx_mkstemp
          rw [h1]
          simp [h2, h3]
        · have ht : spec_tier cfg = none := by
            unfold spec_tier
            cases hm : cfg.HAVE_MKOSTEMP <;> simp [hm] at h1 <;> simp [h1, h2, h3, hm]
          simp [MkstempProps, Safe, LeakFree, newEvents, createdFds, ht]
      · rw [cx_mkstemp_third cfg tpl s h1 h2 h3]
        have ht := spec_tier_ne_none_of_third cfg h3
        rcases a0 : s.answer with ⟨v0, n0⟩ | e0
        · refine ⟨_, rfl, ?_⟩
          obtain ⟨p1, p2, p3, p4⟩ := Props_prepend cfg s _ _ ⟨.mktemp tpl, .ok 0 n0⟩ rfl rfl rfl
            (cx_open_body_props cfg n0 (cfg.O_CREAT ||| cfg.O_WRONLY ||| cfg.O_TRUNC)
              (if (cfg.O_CREAT ||| cfg.O_WRONLY ||| cfg.O_TRUNC) &&& cfg.O_CREAT ≠ 0
                then S_IRUSR ||| S_IWUSR ||| S_IRGRP ||| S_IROTH else 0)
              (s.record (.mktemp tpl) (.ok 0 n0)))
          exact ⟨p1, p2, fun h => Or.inr ⟨ht, p3 h⟩, p4⟩
        · refine ⟨_, rfl, ?_⟩
          simp [MkstempProps, Safe, LeakFree, newEvents, createdFds, lastErr, ht,
            Call.isCreate, Call.fixupOf, Event.failed]
    · have ht : spec_tier cfg ≠ none := by
        unfold spec_tier
        split_ifs <;> simp_all
      refine ⟨if (mkstemp tpl s).1 = -1 then (-1, (mkstemp tpl s).2)
        else fixup_fcntl (mkstemp tpl s).1 (mkstemp tpl s).2, ?_, ?_⟩
      · unfold cx_mkstemp
        rw [h1]
        simp only [h2, if_true]
        split_ifs <;> rfl
      rcases a0 : s.oracle s.log.length with ⟨v0, n0⟩ | e0 <;>
      rcases a1 : s.oracle (s.log.length + 1) with ⟨v1, n1⟩ | e1 <;>
      rcases a2 : s.oracle (s.log.length + 2) with ⟨v2, n2⟩ | e2 <;>
      simp [MkstempProps, Safe, LeakFree, newEvents, createdFds, lastErr, ht,
        Call.isCreate, Call.fixupOf, Event.failed, mkstemp, fixup_fcntl, fcntl,
        sys_setflag, sys_create, close, sys_release, OS.answer, a0, a1, a2]
  · have hoc : cfg.O_CLOEXEC = some oc ∧ cfg.HAVE_MKOSTEMP = true := by
      cases ha : cfg.HAVE_MKOSTEMP <;> simp [ha] at h1
      exact ⟨h1, rfl⟩
    have ht : spec_tier cfg ≠ none := by
      unfold spec_tier
      simp [hoc.1, hoc.2]
    refine ⟨_, by unfold cx_mkstemp; rw [h1], ?_⟩
    rcases a0 : s.oracle s.log.length with ⟨v0, n0⟩ | e0 <;>
    simp [MkstempProps, Safe, LeakFree, newEvents, createdFds, lastErr, ht, Config.WellFormed,
        Call.isCreate, Call.fixupOf, Event.failed, mkostemp, sys_create, OS.answer, a0,
        hasFlag, flagOk, hoc.1]
    tauto


theorem cx_open_body_events (cfg : Config) (path : String) (flags mode : Nat) (s : OS) :
    ∃ o rest, newEvents s (cx_open_body cfg path flags mode s).2
        = ⟨.sys_open path (openFlags cfg flags) mode, o⟩ :: rest ∧
      (∀ ev ∈ rest, ev.call.isOpen = false ∧ ev.call.tier = none) ∧
      ((cx_open_body cfg path flags mode s).1 ≠ -1 →
        (cx_open_body cfg path flags mode s).2.files
          = openFiles cfg path (openFlags cfg flags) mode s) := by
  have key : ((newEvents s (cx_open_body cfg path flags mode s).2).head?).map Event.call
        = some (.sys_open path (openFlags cfg flags) mode) ∧
      (∀ ev ∈ (newEvents s (cx_open_body cfg path flags mode s).2).tail,
        ev.call.isOpen = false ∧ ev.call.tier = none) ∧
      ((cx_open_body cfg path flags mode s).1 ≠ -1 →
        (cx_open_body cfg path flags mode s).2.files
          = openFiles cfg path (openFlags cfg flags) mode s) := by
    rcases hb : cfg._O_BINARY with _ | ob <;> rcases hs : cfg.O_CLOEXEC with _ | oc <;>
    simp only [cx_open_body, sys_open, hb, hs] <;>
    rcases hr : openRefusal cfg path _ s with _ | er <;>
    rcases a0 : s.oracle s.log.length with ⟨v0, n0⟩ | e0 <;>
    rcases a1 : s.oracle (s.log.length + 1) with ⟨v1, n1⟩ | e1 <;>
    rcases a2 : s.oracle (s.log.length + 2) with ⟨v2, n2⟩ | e2 <;>
    simp [newEvents, openFlags, Call.isOpen, Call.tier,
      fixup_fcntl, fcntl, sys_create, sys_setflag, close, sys_release, OS.answer,
      a0, a1, a2, hs, hb]
  obtain ⟨k1, k2, k3⟩ := key
  cases hN : newEvents s (cx_open_body cfg path flags mode s).2 with
  | nil => simp [hN] at k1
  | cons ev rest =>
    rw [hN] at k1 k2
    simp only [List.head?_cons, Option.map_some', Option.some.injEq] at k1
    refine ⟨ev.ret, rest, ?_, k2, k3⟩
    cases ev
    simp only at k1
    rw [k1]


theorem first_tier_none (cfg : Config)
    (h1 : (if cfg.HAVE_MKOSTEMP then cfg.O_CLOEXEC else none) = none) :
    ¬(cfg.HAVE_MKOSTEMP = true ∧ cfg.O_CLOEXEC ≠ none) := by
  rintro ⟨ha, hb⟩
  rw [ha] at h1
  exact hb h1

theorem first_tier_some (cfg : Config) (oc : Nat)
    (h1 : (if cfg.HAVE_MKOSTEMP then cfg.O_CLOEXEC else none) = some oc) :
    cfg.HAVE_MKOSTEMP = true ∧ cfg.O_CLOEXEC = some oc := by
  cases ha : cfg.HAVE_MKOSTEMP
  · rw [ha] at h1; cases h1
  · rw [ha] at h1; exact ⟨rfl, h1⟩

theorem lor3_land_first (a b c : Nat) : (a ||| b ||| c) &&& a = a := by
  apply Nat.eq_of_testBit_eq
  intro i
  simp only [Nat.testBit_land, Nat.testBit_lor]
  cases a.testBit i <;> cases b.testBit i <;> cases c.testBit i <;> rfl

theorem openFlags_land_trunc (cfg : Config) (a b : Nat) :
    openFlags cfg (a ||| b ||| cfg.O_TRUNC) &&& cfg.O_TRUNC = cfg.O_TRUNC := by
  apply Nat.eq_of_testBit_eq
  intro i
  simp only [openFlags, Nat.testBit_land, Nat.testBit_lor]
  cases a.testBit i <;> cases b.testBit i <;> cases cfg.O_TRUNC.testBit i <;>
    cases (cfg._O_BINARY.getD 0).testBit i <;> cases (cfg.O_CLOEXEC.getD 0).testBit i <;> rfl

theorem spec_tier_third (cfg : Config) (ht : spec_tier cfg = some .mktemp) :
    (if cfg.HAVE_MKOSTEMP then cfg.O_CLOEXEC else none) = none ∧
      cfg.HAVE_MKSTEMP = false ∧ cfg.HAVE_MKTEMP = true := by
  unfold spec_tier at ht
  by_cases h1 : cfg.HAVE_MKOSTEMP = true ∧ cfg.O_CLOEXEC ≠ none
  · rw [if_pos h1] at ht; cases ht
  · rw [if_neg h1] at ht
    by_cases h2 : cfg.HAVE_MKSTEMP = true
    · rw [if_pos h2] at ht; cases ht
    · rw [if_neg h2] at ht
      by_cases h3 : cfg.HAVE_MKTEMP = true
      · refine ⟨?_, by simpa using h2, h3⟩
        cases ha : cfg.HAVE_MKOSTEMP
        · rfl
        · cases hb : cfg.O_CLOEXEC
          · rfl
          · exact absurd ⟨ha, by simp [hb]⟩ h1
      · rw [if_neg h3] at ht; cases ht

/-- When `open` is not refused on account of the file and the environment
grants it (and the fixup, where one is needed), `cx_open` returns the
descriptor the environment hands out. -/
theorem cx_open_body_granted (cfg : Config) (path : String) (flags mode : Nat) (s : OS)
    (v : Nat) (m : String)
    (hr : openRefusal cfg path (openFlags cfg flags) s = none)
    (a0 : s.answer = .ok v m)
    (hfix : cfg.O_CLOEXEC = none → ∃ v2 m2, s.oracle (s.log.length + 1) = .ok v2 m2) :
    (cx_open_body cfg path flags mode s).1 = v ∧
      (cx_open_body cfg path flags mode s).2.fd v ≠ none := by
  simp only [OS.answer] at a0
  rcases hb : cfg._O_BINARY with _ | ob <;> rcases hs : cfg.O_CLOEXEC with _ | oc <;>
  simp only [openFlags, hb, hs, Option.getD_none, Option.getD_some, Nat.or_zero] at hr <;>
  simp only [cx_open_body, sys_open, hb, hs, hr]
  · obtain ⟨v2, m2, a1⟩ := hfix hs
    simp [fixup_fcntl, fcntl, sys_create, sys_setflag, OS.answer, a0, a1]
  · simp [sys_create, OS.answer, a0]
  · obtain ⟨v2, m2, a1⟩ := hfix hs
    simp [fixup_fcntl, fcntl, sys_create, sys_setflag, OS.answer, a0, a1]
  · simp [sys_create, OS.answer, a0]

/-- Events and result of `cx_mkstemp` in its third strategy once `mktemp` has
answered the name `n`. -/
theorem cx_mkstemp_third_run (cfg : Config) (tpl : String) (s : OS)
    (ht : spec_tier cfg = some .mktemp) (v0 : Nat) (n : String) (a0 : s.answer = .ok v0 n) :
    ∃ o rest,
      cx_mkstemp cfg tpl s = some (cx_open_body cfg n (cfg.O_CREAT ||| cfg.O_WRONLY ||| cfg.O_TRUNC)
          (if cfg.O_CREAT ≠ 0 then S_IRUSR ||| S_IWUSR ||| S_IRGRP ||| S_IROTH else 0)
          (s.record (.mktemp tpl) (.ok 0 n))) ∧
      newEvents s (cx_open_body cfg n (cfg.O_CREAT ||| cfg.O_WRONLY ||| cfg.O_TRUNC)
          (if cfg.O_CREAT ≠ 0 then S_IRUSR ||| S_IWUSR ||| S_IRGRP ||| S_IROTH else 0)
          (s.record (.mktemp tpl) (.ok 0 n))).2
        = ⟨.mktemp tpl, .ok 0 n⟩ ::
          ⟨.sys_open n (openFlags cfg (cfg.O_CREAT ||| cfg.O_WRONLY ||| cfg.O_TRUNC))
            (if cfg.O_CREAT ≠ 0 then S_IRUSR ||| S_IWUSR ||| S_IRGRP ||| S_IROTH else 0), o⟩
          :: rest ∧
      ∀ ev ∈ rest, ev.call.isOpen = false := by
  obtain ⟨h1, h2, h3⟩ := spec_tier_third cfg ht
  have hm : (if (cfg.O_CREAT ||| cfg.O_WRONLY ||| cfg.O_TRUNC) &&& cfg.O_CREAT ≠ 0
      then S_IRUSR ||| S_IWUSR ||| S_IRGRP ||| S_IROTH else 0)
      = (if cfg.O_CREAT ≠ 0 then S_IRUSR ||| S_IWUSR ||| S_IRGRP ||| S_IROTH else 0) := by
    rw [lor3_land_first]
  have hc := cx_mkstemp_third cfg tpl s h1 h2 h3
  rw [a0, hm] at hc
  generalize (if cfg.O_CREAT ≠ 0 then S_IRUSR ||| S_IWUSR ||| S_IRGRP ||| S_IROTH else 0) = m
    at hc ⊢
  obtain ⟨o, rest, hN, hrest, -⟩ := cx_open_body_events cfg n
    (cfg.O_CREAT ||| cfg.O_WRONLY ||| cfg.O_TRUNC) m (s.record (.mktemp tpl) (.ok 0 n))
  have hlog := (cx_open_body_props cfg n (cfg.O_CREAT ||| cfg.O_WRONLY ||| cfg.O_TRUNC) m
    (s.record (.mktemp tpl) (.ok 0 n))).2.2.2
  rw [hN] at hlog
  refine ⟨o, rest, hc, ?_, fun ev hev => (hrest ev hev).1⟩
  apply newEvents_of_log
  rw [hlog]
  simp

/-! ## Descriptor factory: the claims -/

/-- `cx_open` is defined as soon as the variadic slot is there when `O_CREAT`
asks for it, and its result is that of the body of the function. -/
theorem cx_open_defined (cfg : Config) (path : String) (flags : Nat) (va : Option Nat) (s : OS)
    (hva : flags &&& cfg.O_CREAT ≠ 0 → va ≠ none) :
    cx_open cfg path flags va s =
      some (cx_open_body cfg path flags (if flags &&& cfg.O_CREAT ≠ 0 then va.getD 0 else 0) s) := by
  unfold cx_open
  split_ifs with h
  · cases va with
    | none => exact absurd rfl (hva h)
    | some m => rfl
  · rfl

/-- C1: on a platform whose close-on-exec flag constants are non-zero, for
every configuration and every outcome of the primitive calls, a result of
`cx_accept`, `cx_socket`, `cx_open` or `cx_mkstemp` other than -1 is an open
descriptor with the close-on-exec property in the resulting state. `cx_open`
and `cx_mkstemp` do produce a result (for `cx_open`: when the variadic slot is
present if `O_CREAT` is set). -/
theorem factory_descriptor_cloexec (cfg : Config) (hwf : cfg.WellFormed) (s : OS) :
    (∀ sockfd addr addrlen, Safe (cx_accept cfg sockfd addr addrlen s)) ∧
    (∀ family type protocol, Safe (cx_socket cfg family type protocol s)) ∧
    (∀ path flags va, (flags &&& cfg.O_CREAT ≠ 0 → va ≠ none) →
      ∃ r, cx_open cfg path flags va s = some r ∧ Safe r) ∧
    (∀ tpl, ∃ r, cx_mkstemp cfg tpl s = some r ∧ Safe r) := by
  refine ⟨fun a b c => (cx_accept_props cfg a b c s).1 hwf,
    fun a b c => (cx_socket_props cfg a b c s).1 hwf, ?_, ?_⟩
  · intro path flags va hva
    exact ⟨_, cx_open_defined cfg path flags va s hva, (cx_open_body_props cfg _ _ _ s).1 hwf⟩
  · intro tpl
    obtain ⟨r, h1, h2⟩ := cx_mkstemp_props cfg tpl s
    exact ⟨r, h1, h2.1 hwf⟩

/-- The Linux constants are well formed, and there `cx_socket`, after the
atomic call is refused with `EINVAL` (22), returns descriptor 3 through the
plain call and the fixup: descriptor 3 is close-on-exec. -/
theorem factory_descriptor_cloexec_witness :
    linux.WellFormed ∧
    (cx_socket linux 2 1 0 (boot noFiles (script [.err 22, .ok 3 "", .ok 0 ""]))).1 = 3 ∧
    Safe (cx_socket linux 2 1 0 (boot noFiles (script [.err 22, .ok 3 "", .ok 0 ""]))) :=
  ⟨by simp [Config.WellFormed, flagOk, linux], by decide,
   (factory_descriptor_cloexec linux (by simp [Config.WellFormed, flagOk, linux])
      (boot noFiles (script [.err 22, .ok 3 "", .ok 0 ""]))).2.1 2 1 0⟩

/-! ### Failure of the fixup on each create-then-fixup path -/

theorem cx_socket_fixup_fails (cfg : Config) (s : OS) (family : Int) (type : Nat)
    (protocol : Int) (v : Nat) (n : String) (e : Int) :
    (cfg._WIN32 = false → cfg.SOCK_CLOEXEC = none →
      s.oracle s.log.length = .ok v n → s.oracle (s.log.length + 1) = .err e →
      FailsClosed s (cx_socket cfg family type protocol s) v
        [.socket family type protocol, .fcntl v, .close v]) ∧
    (∀ sc e0, cfg._WIN32 = false → cfg.SOCK_CLOEXEC = some sc →
      s.oracle s.log.length = .err e0 → s.oracle (s.log.length + 1) = .ok v n →
      s.oracle (s.log.length + 2) = .err e →
      FailsClosed s (cx_socket cfg family type protocol s) v
        [.socket family (type ||| sc) protocol, .socket family type protocol,
         .fcntl v, .close v]) ∧
    (∀ e0, cfg._WIN32 = true →
      s.oracle s.log.length = .err e0 → s.oracle (s.log.length + 1) = .ok v n →
      s.oracle (s.log.length + 2) = .err e →
      FailsClosed s (cx_socket cfg family type protocol s) v
        [.WSASocket family type protocol cfg.WSA_FLAG_NO_HANDLE_INHERIT,
         .WSASocket family type protocol 0, .SetHandleInformation v, .closesocket v]) := by
  refine ⟨?_, ?_, ?_⟩
  · intro hw hs a0 a1
    rcases a2 : s.oracle (s.log.length + 2) with ⟨v2, n2⟩ | e2 <;>
    simp [FailsClosed, newEvents, cx_socket, cx_socket_plain, socket, fixup_fcntl, fcntl,
      sys_setflag, sys_create, close, sys_release, OS.answer, a0, a1, a2, hw, hs]
  · intro sc e0 hw hs a0 a1 a2
    rcases a3 : s.oracle (s.log.length + 3) with ⟨v3, n3⟩ | e3 <;>
    simp [FailsClosed, newEvents, cx_socket, cx_socket_plain, socket, fixup_fcntl, fcntl,
      sys_setflag, sys_create, close, sys_release, OS.answer, a0, a1, a2, a3, hw, hs]
  · intro e0 hw a0 a1 a2
    rcases a3 : s.oracle (s.log.length + 3) with ⟨v3, n3⟩ | e3 <;>
    simp [FailsClosed, newEvents, cx_socket, WSASocket, fixup_handle, SetHandleInformation,
      sys_setflag, sys_create, closesocket, sys_release, OS.answer, a0, a1, a2, a3, hw]

theorem cx_accept_fixup_fails (cfg : Config) (s : OS) (sockfd : Int) (addr addrlen : Nat)
    (v : Nat) (n : String) (e : Int) :
    ((if cfg.HAVE_ACCEPT4 then cfg.SOCK_CLOEXEC else none) = none →
      s.oracle s.log.length = .ok v n → s.oracle (s.log.length + 1) = .err e →
      FailsClosed s (cx_accept cfg sockfd addr addrlen s) v
        [.accept sockfd addr addrlen, fixupCall cfg v, releaseCall cfg v]) ∧
    (∀ sc e0, (if cfg.HAVE_ACCEPT4 then cfg.SOCK_CLOEXEC else none) = some sc →
      s.oracle s.log.length = .err e0 → s.oracle (s.log.length + 1) = .ok v n →
      s.oracle (s.log.length + 2) = .err e →
      FailsClosed s (cx_accept cfg sockfd addr addrlen s) v
        [.accept4 sockfd addr addrlen sc, .accept sockfd addr addrlen,
         fixupCall cfg v, releaseCall cfg v]) := by
  refine ⟨?_, ?_⟩
  · intro hs a0 a1
    rcases a2 : s.oracle (s.log.length + 2) with ⟨v2, n2⟩ | e2 <;>
    cases hw : cfg._WIN32 <;>
    simp [FailsClosed, newEvents, fixupCall, releaseCall, cx_accept, cx_accept_plain, accept,
      fixup_fcntl, fixup_handle, fcntl, SetHandleInformation, sys_setflag, sys_create, close,
      closesocket, sys_release, OS.answer, a0, a1, a2, hw, hs]
  · intro sc e0 hs a0 a1 a2
    rcases a3 : s.oracle (s.log.length + 3) with ⟨v3, n3⟩ | e3 <;>
    cases hw : cfg._WIN32 <;>
    simp [FailsClosed, newEvents, fixupCall, releaseCall, cx_accept, cx_accept_plain, accept,
      accept4, fixup_fcntl, fixup_handle, fcntl, SetHandleInformation, sys_setflag, sys_create,
      close, closesocket, sys_release, OS.answer, a0, a1, a2, a3, hw, hs]

theorem cx_open_body_fixup_fails (cfg : Config) (s : OS) (path : String) (flags mode : Nat)
    (v : Nat) (n : String) (e : Int)
    (hs : cfg.O_CLOEXEC = none)
    (hr : openRefusal cfg path (openFlags cfg flags) s = none)
    (a0 : s.oracle s.log.length = .ok v n) (a1 : s.oracle (s.log.length + 1) = .err e) :
    FailsClosed s (cx_open_body cfg path flags mode s) v
      [.sys_open path (openFlags cfg flags) mode, .fcntl v, .close v] := by
  rcases hb : cfg._O_BINARY with _ | ob <;>
  simp only [openFlags, hb, hs, Option.getD_none, Option.getD_some, Nat.or_zero] at hr ⊢ <;>
  simp only [cx_open_body, sys_open, hb, hs, hr] <;>
  rcases a2 : s.oracle (s.log.length + 2) with ⟨v2, n2⟩ | e2 <;>
  simp [FailsClosed, newEvents, fixup_fcntl, fcntl, sys_setflag, sys_create, close,
    sys_release, OS.answer, a0, a1, a2]


theorem spec_tier_second (cfg : Config) (ht : spec_tier cfg = some .mkstemp) :
    (if cfg.HAVE_MKOSTEMP then cfg.O_CLOEXEC else none) = none ∧ cfg.HAVE_MKSTEMP = true := by
  unfold spec_tier at ht
  by_cases h1 : cfg.HAVE_MKOSTEMP = true ∧ cfg.O_CLOEXEC ≠ none
  · rw [if_pos h1] at ht; cases ht
  · rw [if_neg h1] at ht
    by_cases h2 : cfg.HAVE_MKSTEMP = true
    · refine ⟨?_, h2⟩
      cases ha : cfg.HAVE_MKOSTEMP
      · rfl
      · cases hb : cfg.O_CLOEXEC
        · rfl
        · exact absurd ⟨ha, by simp [hb]⟩ h1
    · rw [if_neg h2] at ht
      by_cases h3 : cfg.HAVE_MKTEMP = true
      · rw [if_pos h3] at ht; cases ht
      · rw [if_neg h3] at ht; cases ht

theorem cx_mkstemp_fixup_fails (cfg : Config) (s : OS) (tpl : String)
    (v : Nat) (n : String) (e : Int) :
    (spec_tier cfg = some .mkstemp →
      s.oracle s.log.length = .ok v n → s.oracle (s.log.length + 1) = .err e →
      ∃ r, cx_mkstemp cfg tpl s = some r ∧
        FailsClosed s r v [.mkstemp tpl, .fcntl v, .close v]) ∧
    (∀ v0 nm, spec_tier cfg = some .mktemp → cfg.O_CLOEXEC = none →
      s.oracle s.log.length = .ok v0 nm →
      openRefusal cfg nm (openFlags cfg (cfg.O_CREAT ||| cfg.O_WRONLY ||| cfg.O_TRUNC)) s = none →
      s.oracle (s.log.length + 1) = .ok v n → s.oracle (s.log.length + 2) = .err e →
      ∃ r, cx_mkstemp cfg tpl s = some r ∧
        FailsClosed s r v
          [.mktemp tpl,
           .sys_open nm (openFlags cfg (cfg.O_CREAT ||| cfg.O_WRONLY ||| cfg.O_TRUNC))
             (if cfg.O_CREAT ≠ 0 then S_IRUSR ||| S_IWUSR ||| S_IRGRP ||| S_IROTH else 0),
           .fcntl v, .close v]) := by
  refine ⟨?_, ?_⟩
  · intro ht a0 a1
    obtain ⟨h1, h2⟩ := spec_tier_second cfg ht
    refine ⟨if (mkstemp tpl s).1 = -1 then (-1, (mkstemp tpl s).2)
      else fixup_fcntl (mkstemp tpl s).1 (mkstemp tpl s).2, ?_, ?_⟩
    · unfold cx_mkstemp
      rw [h1]
      simp only [h2, if_true]
      split_ifs <;> rfl
    · rcases a2 : s.oracle (s.log.length + 2) with ⟨v2, n2⟩ | e2 <;>
      simp [FailsClosed, newEvents, mkstemp, fixup_fcntl, fcntl, sys_setflag, sys_create,
        close, sys_release, OS.answer, a0, a1, a2]
  · intro v0 nm ht hs a0 hr a1 a2
    obtain ⟨o, rest, hc, -, -⟩ := cx_mkstemp_third_run cfg tpl s ht v0 nm a0
    generalize (if cfg.O_CREAT ≠ 0 then S_IRUSR ||| S_IWUSR ||| S_IRGRP ||| S_IROTH else 0) = md
      at hc ⊢
    have hr1 : openRefusal cfg nm
        (openFlags cfg (cfg.O_CREAT ||| cfg.O_WRONLY ||| cfg.O_TRUNC))
        (s.record (.mktemp tpl) (.ok 0 nm)) = none := hr
    obtain ⟨f1, f2, f3⟩ := cx_open_body_fixup_fails cfg (s.record (.mktemp tpl) (.ok 0 nm)) nm
      (cfg.O_CREAT ||| cfg.O_WRONLY ||| cfg.O_TRUNC) md v n e hs hr1
      (by simpa using a1) (by simpa using a2)
    have hlog := (cx_open_body_props cfg nm (cfg.O_CREAT ||| cfg.O_WRONLY ||| cfg.O_TRUNC) md
      (s.record (.mktemp tpl) (.ok 0 nm))).2.2.2
    refine ⟨_, hc, f1, f2, ?_⟩
    rw [newEvents_of_log s _ (⟨.mktemp tpl, .ok 0 nm⟩ :: newEvents
      (s.record (.mktemp tpl) (.ok 0 nm))
      (cx_open_body cfg nm (cfg.O_CREAT ||| cfg.O_WRONLY ||| cfg.O_TRUNC) md
        (s.record (.mktemp tpl) (.ok 0 nm))).2) (by rw [hlog]; simp)]
    simp [f3]

/-- C2: for every configuration and every outcome of the primitive calls,
each of `cx_accept`, `cx_socket`, `cx_open`, `cx_mkstemp` is leak free: on
every failure return no descriptor created during the call is open, and a
failed fixup call forces the return -1 with its descriptor released. On every
create-then-fixup path the fixup is attempted: once the creating primitive
(after a failed atomic attempt where there is one) hands out descriptor `v`
and the environment fails the next call, the operation returns -1, `v` is not
open in the resulting state, and the calls it made are exactly the creation,
the fixup on `v` and the release of `v`. The paths are `cx_socket` (POSIX
without and with `SOCK_CLOEXEC`, Windows), `cx_accept` (without and with
`accept4`, the fixup being that of the platform), `cx_open` without
`O_CLOEXEC` when `open` is not refused, and `cx_mkstemp` through `mkstemp` and
through `mktemp` and `cx_open`. -/
theorem factory_failure_leak_free (cfg : Config) (s : OS) :
    (∀ sockfd addr addrlen, LeakFree s (cx_accept cfg sockfd addr addrlen s)) ∧
    (∀ family type protocol, LeakFree s (cx_socket cfg family type protocol s)) ∧
    (∀ path flags va, (flags &&& cfg.O_CREAT ≠ 0 → va ≠ none) →
      ∃ r, cx_open cfg path flags va s = some r ∧ LeakFree s r) ∧
    (∀ tpl, ∃ r, cx_mkstemp cfg tpl s = some r ∧ LeakFree s r) ∧
    (∀ family type protocol v n e,
      (cfg._WIN32 = false → cfg.SOCK_CLOEXEC = none →
        s.oracle s.log.length = .ok v n → s.oracle (s.log.length + 1) = .err e →
        FailsClosed s (cx_socket cfg family type protocol s) v
          [.socket family type protocol, .fcntl v, .close v]) ∧
      (∀ sc e0, cfg._WIN32 = false → cfg.SOCK_CLOEXEC = some sc →
        s.oracle s.log.length = .err e0 → s.oracle (s.log.length + 1) = .ok v n →
        s.oracle (s.log.length + 2) = .err e →
        FailsClosed s (cx_socket cfg family type protocol s) v
          [.socket family (type ||| sc) protocol, .socket family type protocol,
           .fcntl v, .close v]) ∧
      (∀ e0, cfg._WIN32 = true →
        s.oracle s.log.length = .err e0 → s.oracle (s.log.length + 1) = .ok v n →
        s.oracle (s.log.length + 2) = .err e →
        FailsClosed s (cx_socket cfg family type protocol s) v
          [.WSASocket family type protocol cfg.WSA_FLAG_NO_HANDLE_INHERIT,
           .WSASocket family type protocol 0, .SetHandleInformation v, .closesocket v])) ∧
    (∀ sockfd addr addrlen v n e,
      ((if cfg.HAVE_ACCEPT4 then cfg.SOCK_CLOEXEC else none) = none →
        s.oracle s.log.length = .ok v n → s.oracle (s.log.length + 1) = .err e →
        FailsClosed s (cx_accept cfg sockfd addr addrlen s) v
          [.accept sockfd addr addrlen, fixupCall cfg v, releaseCall cfg v]) ∧
      (∀ sc e0, (if cfg.HAVE_ACCEPT4 then cfg.SOCK_CLOEXEC else none) = some sc →
        s.oracle s.log.length = .err e0 → s.oracle (s.log.length + 1) = .ok v n →
        s.oracle (s.log.length + 2) = .err e →
        FailsClosed s (cx_accept cfg sockfd addr addrlen s) v
          [.accept4 sockfd addr addrlen sc, .accept sockfd addr addrlen,
           fixupCall cfg v, releaseCall cfg v])) ∧
    (∀ path flags va v n e, cfg.O_CLOEXEC = none →
      (flags &&& cfg.O_CREAT ≠ 0 → va ≠ none) →
      openRefusal cfg path (openFlags cfg flags) s = none →
      s.oracle s.log.length = .ok v n → s.oracle (s.log.length + 1) = .err e →
      ∃ r, cx_open cfg path flags va s = some r ∧
        FailsClosed s r v
          [.sys_open path (openFlags cfg flags)
             (if flags &&& cfg.O_CREAT ≠ 0 then va.getD 0 else 0), .fcntl v, .close v]) ∧
    (∀ tpl v n e,
      (spec_tier cfg = some .mkstemp →
        s.oracle s.log.length = .ok v n → s.oracle (s.log.length + 1) = .err e →
        ∃ r, cx_mkstemp cfg tpl s = some r ∧
          FailsClosed s r v [.mkstemp tpl, .fcntl v, .close v]) ∧
      (∀ v0 nm, spec_tier cfg = some .mktemp → cfg.O_CLOEXEC = none →
        s.oracle s.log.length = .ok v0 nm →
        openRefusal cfg nm
          (openFlags cfg (cfg.O_CREAT ||| cfg.O_WRONLY ||| cfg.O_TRUNC)) s = none →
        s.oracle (s.log.length + 1) = .ok v n → s.oracle (s.log.length + 2) = .err e →
        ∃ r, cx_mkstemp cfg tpl s = some r ∧
          FailsClosed s r v
            [.mktemp tpl,
             .sys_open nm (openFlags cfg (cfg.O_CREAT ||| cfg.O_WRONLY ||| cfg.O_TRUNC))
               (if cfg.O_CREAT ≠ 0 then S_IRUSR ||| S_IWUSR ||| S_IRGRP ||| S_IROTH else 0),
             .fcntl v, .close v])) := by
  refine ⟨fun a b c => (cx_accept_props cfg a b c s).2.1,
    fun a b c => (cx_socket_props cfg a b c s).2.1, ?_, ?_,
    fun a b c v n e => cx_socket_fixup_fails cfg s a b c v n e,
    fun a b c v n e => cx_accept_fixup_fails cfg s a b c v n e, ?_,
    fun tpl v n e => cx_mkstemp_fixup_fails cfg s tpl v n e⟩
  · intro path flags va hva
    exact ⟨_, cx_open_defined cfg path flags va s hva, (cx_open_body_props cfg _ _ _ s).2.1⟩
  · intro tpl
    obtain ⟨r, h1, h2⟩ := cx_mkstemp_props cfg tpl s
    exact ⟨r, h1, h2.2.1⟩
  · intro path flags va v n e hs hva hr a0 a1
    exact ⟨_, cx_open_defined cfg path flags va s hva,
      cx_open_body_fixup_fails cfg s path flags _ v n e hs hr a0 a1⟩

/-- Runs in which the fixup fails. On Windows the first `WSASocket` fails with
`WSAEMFILE` (10024), the second hands out socket 7 and `SetHandleInformation`
fails with `ERROR_INVALID_HANDLE` (6): `cx_socket` returns -1 after
`closesocket`, and socket 7 is not open. Without `SOCK_CLOEXEC`, `socket`
hands out descriptor 7 and `fcntl` fails with `EINVAL` (22): `cx_socket`
returns -1 after `close`, and descriptor 7 is not open. -/
theorem factory_failure_leak_free_witness :
    (cx_socket windows 2 1 0
      (boot noFiles (script [.err 10024, .ok 7 "", .err 6, .ok 0 ""]))).2.log
      = [⟨.WSASocket 2 1 0 0x80, .err 10024⟩, ⟨.WSASocket 2 1 0 0, .ok 7 ""⟩,
         ⟨.SetHandleInformation 7, .err 6⟩, ⟨.closesocket 7, .ok 0 ""⟩] ∧
    FailsClosed (boot noFiles (script [.err 10024, .ok 7 "", .err 6, .ok 0 ""]))
      (cx_socket windows 2 1 0
        (boot noFiles (script [.err 10024, .ok 7 "", .err 6, .ok 0 ""]))) 7
      [.WSASocket 2 1 0 0x80, .WSASocket 2 1 0 0, .SetHandleInformation 7, .closesocket 7] ∧
    FailsClosed (boot noFiles (script [.ok 7 "", .err 22, .ok 0 ""]))
      (cx_socket legacy 2 1 0 (boot noFiles (script [.ok 7 "", .err 22, .ok 0 ""]))) 7
      [.socket 2 1 0, .fcntl 7, .close 7] ∧
    LeakFree (boot noFiles (script [.ok 7 "", .err 22, .ok 0 ""]))
      (cx_socket legacy 2 1 0 (boot noFiles (script [.ok 7 "", .err 22, .ok 0 ""]))) :=
  ⟨by decide,
   ((factory_failure_leak_free windows
      (boot noFiles (script [.err 10024, .ok 7 "", .err 6, .ok 0 ""]))).2.2.2.2.1
        2 1 0 7 "" 6).2.2 10024 (by decide) (by decide) (by decide) (by decide),
   ((factory_failure_leak_free legacy
      (boot noFiles (script [.ok 7 "", .err 22, .ok 0 ""]))).2.2.2.2.1
        2 1 0 7 "" 22).1 (by decide) (by decide) (by decide) (by decide),
   (factory_failure_leak_free legacy
      (boot noFiles (script [.ok 7 "", .err 22, .ok 0 ""]))).2.1 2 1 0⟩


/-- C4, the claim as stated fails: without `SOCK_CLOEXEC`, `socket` hands out
descriptor 7, the fixup `fcntl` fails with `EINVAL` (22) and the `close` that
follows fails with `EINTR` (4). `cx_socket` returns -1 and the error register
holds 4, the code of the `close`, not 22, the code of the fixup. -/
theorem factory_errno_close_overwrites :
    (cx_socket legacy 2 1 0 (boot noFiles (script [.ok 7 "", .err 22, .err 4]))).1 = -1 ∧
    (cx_socket legacy 2 1 0 (boot noFiles (script [.ok 7 "", .err 22, .err 4]))).2.log
      = [⟨.socket 2 1 0, .ok 7 ""⟩, ⟨.fcntl 7, .err 22⟩, ⟨.close 7, .err 4⟩] ∧
    (cx_socket legacy 2 1 0 (boot noFiles (script [.ok 7 "", .err 22, .err 4]))).2.errno = 4 ∧
    (cx_socket legacy 2 1 0 (boot noFiles (script [.ok 7 "", .err 22, .err 4]))).2.errno ≠ 22 := by
  decide

/-- C4 as amended: on every failure return of `cx_accept`, `cx_socket`,
`cx_open` and `cx_mkstemp` the error register holds the code stored by the
last primitive call of the operation that failed (`ENOTSUP` when `cx_mkstemp`
has no strategy): the code of the creating primitive when creation fails, the
code of the fixup when the fixup fails and the following `close` succeeds, and
the code of the `close` when that fails too. -/
theorem factory_errno_last_failure (cfg : Config) (s : OS) :
    (∀ sockfd addr addrlen, ReportsLast s (cx_accept cfg sockfd addr addrlen s)) ∧
    (∀ family type protocol, ReportsLast s (cx_socket cfg family type protocol s)) ∧
    (∀ path flags va, (flags &&& cfg.O_CREAT ≠ 0 → va ≠ none) →
      ∃ r, cx_open cfg path flags va s = some r ∧ ReportsLast s r) ∧
    (∀ tpl, ∃ r, cx_mkstemp cfg tpl s = some r ∧
      (r.1 = -1 →
        (spec_tier cfg = none ∧ r.2.errno = cfg.ENOTSUP) ∨
        (spec_tier cfg ≠ none ∧ lastErr (newEvents s r.2) = some r.2.errno))) ∧
    (∀ (pre : List Event) (c : Call) (e : Int), lastErr (pre ++ [⟨c, .err e⟩]) = some e) ∧
    (∀ (pre : List Event) (c1 c2 : Call) (e1 : Int) (v : Nat) (n : String),
      lastErr (pre ++ [⟨c1, .err e1⟩, ⟨c2, .ok v n⟩]) = some e1) ∧
    (∀ (pre : List Event) (c1 c2 : Call) (e1 e2 : Int),
      lastErr (pre ++ [⟨c1, .err e1⟩, ⟨c2, .err e2⟩]) = some e2) := by
  have hl : ∀ (pre l : List Event) (e : Int), lastErr l = some e →
      lastErr (pre ++ l) = some e := by
    intro pre l e h
    induction pre with
    | nil => exact h
    | cons ev pre ih => exact lastErr_cons_of_some ev _ e ih
  refine ⟨fun a b c => (cx_accept_props cfg a b c s).2.2.1,
    fun a b c => (cx_socket_props cfg a b c s).2.2.1, ?_, ?_,
    fun pre c e => hl pre _ e rfl, fun pre c1 c2 e1 v n => hl pre _ e1 rfl,
    fun pre c1 c2 e1 e2 => hl pre _ e2 rfl⟩
  · intro path flags va hva
    exact ⟨_, cx_open_defined cfg path flags va s hva, (cx_open_body_props cfg _ _ _ s).2.2.1⟩
  · intro tpl
    obtain ⟨r, h1, h2⟩ := cx_mkstemp_props cfg tpl s
    exact ⟨r, h1, h2.2.2.1⟩

/-- C5: for every configuration `cx_mkstemp` produces a result and uses exactly
one strategy, the first available of (1) `mkostemp` with `O_CLOEXEC`,
(2) `mkstemp` then fixup, (3) `mktemp` then `cx_open`: the calls it makes that
belong to a strategy all belong to that one, its first call is the primitive
of that strategy on the template, and when that call fails it returns -1
without any further call. When no strategy is available it makes no call,
returns -1 and sets the error register to `ENOTSUP`, the state being otherwise
unchanged. -/
theorem cx_mkstemp_single_tier (cfg : Config) (tpl : String) (s : OS) :
    ∃ r, cx_mkstemp cfg tpl s = some r ∧
      (∀ t, (∃ ev ∈ newEvents s r.2, ev.call.tier = some t) ↔ spec_tier cfg = some t) ∧
      ((newEvents s r.2).head?.map Event.call = (spec_tier cfg).map (tierCall cfg tpl)) ∧
      (∀ e, spec_tier cfg ≠ none → s.answer = .err e →
        r.1 = -1 ∧ (newEvents s r.2).length = 1) ∧
      (spec_tier cfg = none →
        r = (-1, { s with errno := cfg.ENOTSUP }) ∧ newEvents s r.2 = []) := by
  rcases h1 : (if cfg.HAVE_MKOSTEMP then cfg.O_CLOEXEC else none) with _ | oc
  · have hn := first_tier_none cfg h1
    cases h2 : cfg.HAVE_MKSTEMP
    · cases h3 : cfg.HAVE_MKTEMP
      · have ht : spec_tier cfg = none := by simp [spec_tier, hn, h2, h3]
        refine ⟨(-1, { s with errno := cfg.ENOTSUP }), ?_, ?_⟩
        · unfold cx_mkstemp
          rw [h1]
          simp [h2, h3]
        · simp [ht, newEvents]
      · have ht : spec_tier cfg = some .mktemp := by simp [spec_tier, hn, h2, h3]
        rw [cx_mkstemp_third cfg tpl s h1 h2 h3]
        rcases a0 : s.answer with ⟨v0, n0⟩ | e0
        · refine ⟨_, rfl, ?_⟩
          generalize (if (cfg.O_CREAT ||| cfg.O_WRONLY ||| cfg.O_TRUNC) &&& cfg.O_CREAT ≠ 0
              then S_IRUSR ||| S_IWUSR ||| S_IRGRP ||| S_IROTH else 0) = m
          obtain ⟨o, rest, hN, hrest, -⟩ := cx_open_body_events cfg n0
            (cfg.O_CREAT ||| cfg.O_WRONLY ||| cfg.O_TRUNC) m (s.record (.mktemp tpl) (.ok 0 n0))
          have hlog := (cx_open_body_props cfg n0
            (cfg.O_CREAT ||| cfg.O_WRONLY ||| cfg.O_TRUNC) m
            (s.record (.mktemp tpl) (.ok 0 n0))).2.2.2
          rw [hN] at hlog
          have hNs := newEvents_of_log s _ (⟨.mktemp tpl, .ok 0 n0⟩ ::
            ⟨.sys_open n0 (openFlags cfg (cfg.O_CREAT ||| cfg.O_WRONLY ||| cfg.O_TRUNC)) m, o⟩
              :: rest)
            (by rw [hlog]; simp)
          simp only [hNs, ht]
          refine ⟨?_, by simp [tierCall], by simp, by simp⟩
          intro t
          constructor
          · rintro ⟨ev, hev, htier⟩
            simp only [List.mem_cons] at hev
            rcases hev with rfl | rfl | hev
            · simpa [Call.tier] using htier
            · simpa [Call.tier] using htier
            · rw [(hrest ev hev).2] at htier; cases htier
          · intro h
            exact ⟨_, List.mem_cons_self _ _, by simp [Call.tier, ← h]⟩
        · refine ⟨_, rfl, ?_⟩
          simp [ht, newEvents, Call.tier, tierCall]
    · have ht : spec_tier cfg = some .mkstemp := by simp [spec_tier, hn, h2]
      refine ⟨if (mkstemp tpl s).1 = -1 then (-1, (mkstemp tpl s).2)
        else fixup_fcntl (mkstemp tpl s).1 (mkstemp tpl s).2, ?_, ?_⟩
      · unfold cx_mkstemp
        rw [h1]
        simp only [h2, if_true]
        split_ifs <;> rfl
      · rcases a0 : s.oracle s.log.length with ⟨v0, n0⟩ | e0 <;>
        rcases a1 : s.oracle (s.log.length + 1) with ⟨v1, n1⟩ | e1 <;>
        rcases a2 : s.oracle (s.log.length + 2) with ⟨v2, n2⟩ | e2 <;>
        simp [ht, newEvents, Call.tier, tierCall, mkstemp, fixup_fcntl, fcntl,
          sys_setflag, sys_create, close, sys_release, OS.answer, a0, a1, a2]
  · obtain ⟨ha, hoc⟩ := first_tier_some cfg oc h1
    have ht : spec_tier cfg = some .mkostemp := by simp [spec_tier, ha, hoc]
    refine ⟨_, by unfold cx_mkstemp; rw [h1], ?_⟩
    rcases a0 : s.oracle s.log.length with ⟨v0, n0⟩ | e0 <;>
    simp [ht, newEvents, Call.tier, tierCall, mkostemp, sys_create, OS.answer, a0, hoc]


/-- Without any strategy (`bare`), `cx_mkstemp` returns -1 with `ENOTSUP` (95)
in the error register and has made no call. -/
theorem cx_mkstemp_single_tier_witness :
    spec_tier bare = none ∧
    ∃ r, cx_mkstemp bare "/tmp/astra.XXXXXX" (boot noFiles (script [])) = some r ∧
      r.1 = -1 ∧ r.2.errno = 95 ∧ newEvents (boot noFiles (script [])) r.2 = [] := by
  refine ⟨by decide, ?_⟩
  obtain ⟨r, h1, -, -, -, h5⟩ :=
    cx_mkstemp_single_tier bare "/tmp/astra.XXXXXX" (boot noFiles (script []))
  obtain ⟨h6, h7⟩ := h5 (by decide)
  exact ⟨r, h1, by rw [h6], by rw [h6]; rfl, h7⟩

/-- C3, the claim as stated fails: on Linux the atomic `socket` call fails
with `EMFILE` (24), a genuine error; `cx_socket` then calls the plain `socket`,
which succeeds, and returns descriptor 7. Likewise `cx_accept` after `accept4`
fails with `EMFILE`, and `cx_socket` on Windows after `WSASocket` with
`WSA_FLAG_NO_HANDLE_INHERIT` fails with `WSAEMFILE` (10024). -/
theorem atomic_genuine_error_retried :
    (cx_socket linux 2 1 0 (boot noFiles (script [.err 24, .ok 7 "", .ok 0 ""]))).1 = 7 ∧
    (cx_socket linux 2 1 0 (boot noFiles (script [.err 24, .ok 7 "", .ok 0 ""]))).2.log
      = [⟨.socket 2 (1 ||| 0o2000000) 0, .err 24⟩, ⟨.socket 2 1 0, .ok 7 ""⟩,
         ⟨.fcntl 7, .ok 0 ""⟩] ∧
    (cx_accept linux 3 0 0 (boot noFiles (script [.err 24, .ok 7 "", .ok 0 ""]))).1 = 7 ∧
    (cx_accept linux 3 0 0 (boot noFiles (script [.err 24, .ok 7 "", .ok 0 ""]))).2.log
      = [⟨.accept4 3 0 0 0o2000000, .err 24⟩, ⟨.accept 3 0 0, .ok 7 ""⟩,
         ⟨.fcntl 7, .ok 0 ""⟩] ∧
    (cx_socket windows 2 1 0 (boot noFiles (script [.err 10024, .ok 7 "", .ok 0 ""]))).1 = 7 ∧
    (cx_socket windows 2 1 0 (boot noFiles (script [.err 10024, .ok 7 "", .ok 0 ""]))).2.log
      = [⟨.WSASocket 2 1 0 0x80, .err 10024⟩, ⟨.WSASocket 2 1 0 0, .ok 7 ""⟩,
         ⟨.SetHandleInformation 7, .ok 0 ""⟩] := by
  decide

/-- C3 as amended: where the atomic primitive is available (`socket` with
`SOCK_CLOEXEC`, `WSASocket` with `WSA_FLAG_NO_HANDLE_INHERIT`, `accept4`),
`cx_socket` and `cx_accept` call it first. If it succeeds they return its
descriptor after that single call. If it fails, with whatever error code,
their next call is the plain primitive with the caller's arguments, and the
result is that of the plain path run after the failed call. -/
theorem atomic_failure_falls_back (cfg : Config) (s : OS) :
    (∀ sc family type protocol, cfg._WIN32 = false → cfg.SOCK_CLOEXEC = some sc →
      (∀ v n, s.answer = .ok v n →
        (cx_socket cfg family type protocol s).1 = v ∧
        newEvents s (cx_socket cfg family type protocol s).2
          = [⟨.socket family (type ||| sc) protocol, .ok v ""⟩]) ∧
      (∀ e, s.answer = .err e →
        cx_socket cfg family type protocol s
          = cx_socket_plain cfg family type protocol
              (s.record (.socket family (type ||| sc) protocol) (.err e)) ∧
        ((newEvents s (cx_socket cfg family type protocol s).2).map Event.call).take 2
          = [.socket family (type ||| sc) protocol, .socket family type protocol])) ∧
    (∀ family type protocol, cfg._WIN32 = true →
      (∀ v n, s.answer = .ok v n →
        (cx_socket cfg family type protocol s).1 = v ∧
        newEvents s (cx_socket cfg family type protocol s).2
          = [⟨.WSASocket family type protocol cfg.WSA_FLAG_NO_HANDLE_INHERIT, .ok v ""⟩]) ∧
      (∀ e, s.answer = .err e →
        ((newEvents s (cx_socket cfg family type protocol s).2).map Event.call).take 2
          = [.WSASocket family type protocol cfg.WSA_FLAG_NO_HANDLE_INHERIT,
             .WSASocket family type protocol 0])) ∧
    (∀ sc sockfd addr addrlen, cfg.HAVE_ACCEPT4 = true → cfg.SOCK_CLOEXEC = some sc →
      (∀ v n, s.answer = .ok v n →
        (cx_accept cfg sockfd addr addrlen s).1 = v ∧
        newEvents s (cx_accept cfg sockfd addr addrlen s).2
          = [⟨.accept4 sockfd addr addrlen sc, .ok v ""⟩]) ∧
      (∀ e, s.answer = .err e →
        cx_accept cfg sockfd addr addrlen s
          = cx_accept_plain cfg sockfd addr addrlen
              (s.record (.accept4 sockfd addr addrlen sc) (.err e)) ∧
        ((newEvents s (cx_accept cfg sockfd addr addrlen s).2).map Event.call).take 2
          = [.accept4 sockfd addr addrlen sc, .accept sockfd addr addrlen])) := by
  refine ⟨?_, ?_, ?_⟩
  · intro sc family type protocol hw hs
    constructor
    · intro v n a0
      simp only [OS.answer] at a0
      simp [cx_socket, socket, sys_create, OS.answer, newEvents, a0, hw, hs]
    · intro e a0
      simp only [OS.answer] at a0
      rcases a1 : s.oracle (s.log.length + 1) with ⟨v1, n1⟩ | e1 <;>
      rcases a2 : s.oracle (s.log.length + 2) with ⟨v2, n2⟩ | e2 <;>
      rcases a3 : s.oracle (s.log.length + 3) with ⟨v3, n3⟩ | e3 <;>
      simp [cx_socket, cx_socket_plain, socket, fixup_fcntl, fcntl, sys_setflag, sys_create,
        close, sys_release, OS.answer, newEvents, a0, a1, a2, a3, hw, hs]
  · intro family type protocol hw
    constructor
    · intro v n a0
      simp only [OS.answer] at a0
      simp [cx_socket, WSASocket, sys_create, OS.answer, newEvents, a0, hw]
    · intro e a0
      simp only [OS.answer] at a0
      rcases a1 : s.oracle (s.log.length + 1) with ⟨v1, n1⟩ | e1 <;>
      rcases a2 : s.oracle (s.log.length + 2) with ⟨v2, n2⟩ | e2 <;>
      rcases a3 : s.oracle (s.log.length + 3) with ⟨v3, n3⟩ | e3 <;>
      simp [cx_socket, WSASocket, fixup_handle, SetHandleInformation, sys_setflag, sys_create,
        closesocket, sys_release, OS.answer, newEvents, a0, a1, a2, a3, hw]
  · intro sc sockfd addr addrlen ha hs
    constructor
    · intro v n a0
      simp only [OS.answer] at a0
      simp [cx_accept, accept4, sys_create, OS.answer, newEvents, a0, ha, hs]
    · intro e a0
      simp only [OS.answer] at a0
      rcases a1 : s.oracle (s.log.length + 1) with ⟨v1, n1⟩ | e1 <;>
      rcases a2 : s.oracle (s.log.length + 2) with ⟨v2, n2⟩ | e2 <;>
      rcases a3 : s.oracle (s.log.length + 3) with ⟨v3, n3⟩ | e3 <;>
      cases hw : cfg._WIN32 <;>
      simp [cx_accept, cx_accept_plain, accept, accept4, fixup_fcntl, fixup_handle, fcntl,
        SetHandleInformation, sys_setflag, sys_create,
        close, closesocket, sys_release, OS.answer, newEvents, a0, a1, a2, a3, hw, hs, ha]


/-- C10: `cx_open` reads the variadic slot only when `flags` contains
`O_CREAT`: it is defined exactly when the slot is present or `O_CREAT` is
unset, and with `O_CREAT` unset its result does not depend on the slot. The
first call it makes is its only call of `open`, on the caller's path, with
mode equal to the caller's mode when `O_CREAT` is set and 0 otherwise, and with
the caller's flags to which `_O_BINARY` and `O_CLOEXEC` are added where the
platform defines them: bit by bit, a flag bit is set exactly when it is set in
the caller's flags or in one of these two constants. -/
theorem cx_open_request (cfg : Config) (path : String) (flags : Nat) (va : Option Nat)
    (s : OS) :
    ((cx_open cfg path flags va s).isSome ↔ (flags &&& cfg.O_CREAT ≠ 0 → va.isSome)) ∧
    (flags &&& cfg.O_CREAT = 0 →
      ∀ va2, cx_open cfg path flags va2 s = cx_open cfg path flags va s) ∧
    (∀ r, cx_open cfg path flags va s = some r →
      ∃ o rest, newEvents s r.2
          = ⟨.sys_open path (openFlags cfg flags)
              (if flags &&& cfg.O_CREAT ≠ 0 then va.getD 0 else 0), o⟩ :: rest ∧
        ∀ ev ∈ rest, ev.call.isOpen = false) ∧
    (∀ i, (openFlags cfg flags).testBit i
      = (flags.testBit i || (cfg._O_BINARY.getD 0).testBit i
          || (cfg.O_CLOEXEC.getD 0).testBit i)) := by
  refine ⟨?_, ?_, ?_, ?_⟩
  · unfold cx_open
    split_ifs with h
    · cases va <;> simp [h]
    · simp [h]
  · intro h va2
    unfold cx_open
    simp [h]
  · intro r hr
    have hd : cx_open cfg path flags va s = some (cx_open_body cfg path flags
        (if flags &&& cfg.O_CREAT ≠ 0 then va.getD 0 else 0) s) := by
      apply cx_open_defined
      intro h hva
      rw [hva] at hr
      simp [cx_open, h] at hr
    rw [hd] at hr
    have hr2 := Option.some.inj hr
    subst hr2
    obtain ⟨o, rest, h1, h2, -⟩ := cx_open_body_events cfg path flags
      (if flags &&& cfg.O_CREAT ≠ 0 then va.getD 0 else 0) s
    exact ⟨o, rest, h1, fun ev hev => (h2 ev hev).1⟩
  · intro i
    simp [openFlags, Nat.testBit_lor]


/-- C6, the claim as stated fails: in the sample run of the third strategy,
with file creation mask 022, the mode passed to `open` is 0644, which has the
group read and the others read bit, and the file created has permissions 0644:
group and others can read it. -/
theorem weakest_tier_mode_not_owner_only :
    (weakestRun noFiles).map (fun r => r.1) = some 5 ∧
    (weakestRun noFiles).map (fun r => r.2.log)
      = some [⟨.mktemp "/tmp/astra.XXXXXX", .ok 0 "/tmp/astra.1a2b3c"⟩,
              ⟨.sys_open "/tmp/astra.1a2b3c" 0o1101 0o644, .ok 5 ""⟩,
              ⟨.fcntl 5, .ok 0 ""⟩] ∧
    0o644 &&& S_IRGRP ≠ 0 ∧ 0o644 &&& S_IROTH ≠ 0 ∧
    (weakestRun noFiles).map (fun r => r.2.files "/tmp/astra.1a2b3c")
      = some (some ⟨0o644, 0⟩) := by
  decide

/-- C6 as amended: when `cx_mkstemp` runs its third strategy (and `O_CREAT` is
a non-zero flag), the call after `mktemp` is its only `open`, on the generated
name, with the permission bitmask 0644 = `S_IRUSR | S_IWUSR | S_IRGRP |
S_IROTH`: read and write for the owner, read only for the group and for
others. A file the call creates has permissions `0644 & ~umask`. -/
theorem weakest_tier_mode (cfg : Config) (tpl : String) (s : OS)
    (ht : spec_tier cfg = some .mktemp) (hc : cfg.O_CREAT ≠ 0)
    (v0 : Nat) (n : String) (a0 : s.answer = .ok v0 n) :
    ∃ r o rest, cx_mkstemp cfg tpl s = some r ∧
      newEvents s r.2 = ⟨.mktemp tpl, .ok 0 n⟩ ::
        ⟨.sys_open n (openFlags cfg (cfg.O_CREAT ||| cfg.O_WRONLY ||| cfg.O_TRUNC)) 0o644, o⟩
        :: rest ∧
      (∀ ev ∈ rest, ev.call.isOpen = false) ∧
      (0o644 = S_IRUSR ||| S_IWUSR ||| S_IRGRP ||| S_IROTH ∧
        0o644 &&& S_IRWXG = S_IRGRP ∧ 0o644 &&& S_IRWXO = S_IROTH) ∧
      (s.files n = none → r.1 ≠ -1 →
        r.2.files n = some ⟨applyUmask 0o644 s.umask, 0⟩) := by
  obtain ⟨o, rest, h1, h2, h3⟩ := cx_mkstemp_third_run cfg tpl s ht v0 n a0
  have hm : (if cfg.O_CREAT ≠ 0 then S_IRUSR ||| S_IWUSR ||| S_IRGRP ||| S_IROTH else 0)
      = 0o644 := by
    rw [if_pos hc]; decide
  rw [hm] at h1 h2
  refine ⟨_, o, rest, h1, h2, h3, by decide, ?_⟩
  intro hf hne
  obtain ⟨_, _, _, _, hopen⟩ := cx_open_body_events cfg n
    (cfg.O_CREAT ||| cfg.O_WRONLY ||| cfg.O_TRUNC) 0o644 (s.record (.mktemp tpl) (.ok 0 n))
  have hfiles := hopen hne
  rw [hfiles]
  simp [openFiles, hf]


/-- The sample run of the third strategy meets the hypotheses of the amended
C6: the strategy selected for `legacy` is the third and its `O_CREAT` is not
zero. -/
theorem weakest_tier_mode_witness :
    spec_tier legacy = some .mktemp ∧ legacy.O_CREAT ≠ 0 ∧
    ∃ r o rest, weakestRun noFiles = some r ∧
      newEvents (boot noFiles (script [.ok 0 "/tmp/astra.1a2b3c", .ok 5 "", .ok 0 ""])) r.2
        = ⟨.mktemp "/tmp/astra.XXXXXX", .ok 0 "/tmp/astra.1a2b3c"⟩ ::
          ⟨.sys_open "/tmp/astra.1a2b3c"
            (openFlags legacy (legacy.O_CREAT ||| legacy.O_WRONLY ||| legacy.O_TRUNC)) 0o644, o⟩
          :: rest ∧
      (∀ ev ∈ rest, ev.call.isOpen = false) ∧
      (0o644 = S_IRUSR ||| S_IWUSR ||| S_IRGRP ||| S_IROTH ∧
        0o644 &&& S_IRWXG = S_IRGRP ∧ 0o644 &&& S_IRWXO = S_IROTH) ∧
      (noFiles "/tmp/astra.1a2b3c" = none → r.1 ≠ -1 →
        r.2.files "/tmp/astra.1a2b3c" = some ⟨applyUmask 0o644 0o022, 0⟩) :=
  ⟨by decide, by decide,
   weakest_tier_mode legacy "/tmp/astra.XXXXXX"
     (boot noFiles (script [.ok 0 "/tmp/astra.1a2b3c", .ok 5 "", .ok 0 ""]))
     (by decide) (by decide) 0 "/tmp/astra.1a2b3c" (by decide)⟩

/-- C7, the claim as stated fails: in the sample run of the third strategy a
file of 10 bytes with the generated name already exists. The flags passed to
`open` lack `O_EXCL`; `cx_mkstemp` does not fail but returns descriptor 5, and
the existing file has been truncated to length 0. -/
theorem weakest_tier_truncates_existing :
    oneFile "/tmp/astra.1a2b3c" = some ⟨0o600, 10⟩ ∧
    (weakestRun oneFile).map (fun r => r.1) = some 5 ∧
    (weakestRun oneFile).map (fun r => r.2.log)
      = some [⟨.mktemp "/tmp/astra.XXXXXX", .ok 0 "/tmp/astra.1a2b3c"⟩,
              ⟨.sys_open "/tmp/astra.1a2b3c" 0o1101 0o644, .ok 5 ""⟩,
              ⟨.fcntl 5, .ok 0 ""⟩] ∧
    0o1101 &&& legacy.O_EXCL = 0 ∧
    (weakestRun oneFile).map (fun r => r.2.fd 5) = some (some true) ∧
    (weakestRun oneFile).map (fun r => r.2.files "/tmp/astra.1a2b3c")
      = some (some ⟨0o600, 0⟩) := by
  decide

/-- C7 as amended: when `cx_mkstemp` runs its third strategy, the `open` it
issues on the generated name carries `O_CREAT | O_WRONLY | O_TRUNC` and not
`O_EXCL` (the platform's `O_EXCL` is a bit of its own and `O_TRUNC` is a
non-zero flag). If a file with the generated name exists when the open is
made, the open is not refused on that account; when the environment grants it
(and the fixup, where `O_CLOEXEC` is undefined), `cx_mkstemp` returns the
descriptor handed out for the existing file, whose permissions are unchanged
and whose length is 0. -/
theorem weakest_tier_opens_existing (cfg : Config) (tpl : String) (s : OS)
    (ht : spec_tier cfg = some .mktemp)
    (hx : openFlags cfg (cfg.O_CREAT ||| cfg.O_WRONLY ||| cfg.O_TRUNC) &&& cfg.O_EXCL = 0)
    (htr : cfg.O_TRUNC ≠ 0)
    (v0 : Nat) (n : String) (a0 : s.answer = .ok v0 n)
    (f : File) (hf : s.files n = some f)
    (v : Nat) (m : String) (a1 : s.oracle (s.log.length + 1) = .ok v m)
    (hfix : cfg.O_CLOEXEC = none → ∃ v2 m2, s.oracle (s.log.length + 2) = .ok v2 m2) :
    ∃ r, cx_mkstemp cfg tpl s = some r ∧
      openRefusal cfg n (openFlags cfg (cfg.O_CREAT ||| cfg.O_WRONLY ||| cfg.O_TRUNC)) s = none ∧
      r.1 = v ∧ r.2.fd v ≠ none ∧ r.2.files n = some ⟨f.mode, 0⟩ := by
  obtain ⟨o, rest, h1, -, -⟩ := cx_mkstemp_third_run cfg tpl s ht v0 n a0
  generalize (if cfg.O_CREAT ≠ 0 then S_IRUSR ||| S_IWUSR ||| S_IRGRP ||| S_IROTH else 0) = md
    at h1
  have hr : ∀ s2 : OS, s2.files = s.files →
      openRefusal cfg n (openFlags cfg (cfg.O_CREAT ||| cfg.O_WRONLY ||| cfg.O_TRUNC)) s2
        = none := by
    intro s2 h2
    simp [openRefusal, h2, hf, hx]
  have hv := cx_open_body_granted cfg n (cfg.O_CREAT ||| cfg.O_WRONLY ||| cfg.O_TRUNC) md
    (s.record (.mktemp tpl) (.ok 0 n)) v m (hr _ rfl) (by simpa [OS.answer] using a1)
    (by simpa using hfix)
  have hne : (cx_open_body cfg n (cfg.O_CREAT ||| cfg.O_WRONLY ||| cfg.O_TRUNC) md
    (s.record (.mktemp tpl) (.ok 0 n))).1 ≠ -1 := by
    rw [hv.1]; omega
  obtain ⟨_, _, _, _, hopen⟩ := cx_open_body_events cfg n
    (cfg.O_CREAT ||| cfg.O_WRONLY ||| cfg.O_TRUNC) md (s.record (.mktemp tpl) (.ok 0 n))
  have hfiles := hopen hne
  refine ⟨_, h1, hr s rfl, hv.1, hv.2, ?_⟩
  · rw [hfiles]
    simp [openFiles, hf, openFlags_land_trunc, htr]


/-- The sample run with the existing file meets the hypotheses of the amended
C7. -/
theorem weakest_tier_opens_existing_witness :
    spec_tier legacy = some .mktemp ∧
    openFlags legacy (legacy.O_CREAT ||| legacy.O_WRONLY ||| legacy.O_TRUNC)
      &&& legacy.O_EXCL = 0 ∧
    legacy.O_TRUNC ≠ 0 ∧
    oneFile "/tmp/astra.1a2b3c" = some ⟨0o600, 10⟩ ∧
    ∃ r, weakestRun oneFile = some r ∧
      openRefusal legacy "/tmp/astra.1a2b3c"
        (openFlags legacy (legacy.O_CREAT ||| legacy.O_WRONLY ||| legacy.O_TRUNC))
        (boot oneFile (script [.ok 0 "/tmp/astra.1a2b3c", .ok 5 "", .ok 0 ""])) = none ∧
      r.1 = (5 : Nat) ∧ r.2.fd (5 : Nat) ≠ none ∧
      r.2.files "/tmp/astra.1a2b3c" = some ⟨0o600, 0⟩ :=
  ⟨by decide, by decide, by decide, by decide,
   weakest_tier_opens_existing legacy "/tmp/astra.XXXXXX"
     (boot oneFile (script [.ok 0 "/tmp/astra.1a2b3c", .ok 5 "", .ok 0 ""]))
     (by decide) (by decide) (by decide) 0 "/tmp/astra.1a2b3c" (by decide)
     ⟨0o600, 10⟩ (by decide) 5 "" (by decide) (fun _ => ⟨0, "", by decide⟩)⟩

/-! ## String compatibility: the claims -/

/-- C8: the fallback `strnlen(str, max)` returns the offset of the first zero
byte among the first `max` bytes of `str` and `max` when none of them is zero;
the result is at most `max`, is `min(strlen(str), max)` for a terminated
string, depends only on the first `max` bytes, and `strnlen("hello", 10) = 5`,
`strnlen("hello", 3) = 3` whatever follows the string in memory. -/
theorem strnlen_spec (str : Nat → Nat) (max : Nat) :
    (∀ i, i < max → str i = 0 → (∀ j, j < i → str j ≠ 0) → strnlen str max = i) ∧
    ((∀ j, j < max → str j ≠ 0) → strnlen str max = max) ∧
    strnlen str max ≤ max ∧
    (∀ n, str n = 0 → (∀ j, j < n → str j ≠ 0) → strnlen str max = min n max) ∧
    (∀ str2 : Nat → Nat, (∀ i, i < max → str i = str2 i) →
      strnlen str max = strnlen str2 max) ∧
    (∀ rest, strnlen (cstr hello rest) 10 = 5 ∧ strnlen (cstr hello rest) 3 = 3) := by
  refine ⟨fun i h1 h2 h3 => strnlen_first_zero str max i h1 h2 h3,
    strnlen_no_zero str max, strnlen_le str max,
    fun n h1 h2 => strnlen_terminated str max n h1 h2,
    fun str2 h => strnlen_congr str str2 max h, ?_⟩
  intro rest
  constructor <;> simp [strnlen, memchr, memchr_from, cstr, hello]

/-- C9: provided `strnlen(str, max) + 1` is representable in `size_t`, the
fallback `strndup(str, max)` returns the null result exactly when the
allocation fails; otherwise the new block has `strnlen(str, max) + 1` bytes:
the first `strnlen(str, max)` bytes of `str`, none of them zero, followed by a
zero byte. A zero-length result is the non-null block holding one zero byte,
`strndup("hello", 3) = "hel"` and `strndup("hi", 10) = "hi"`. -/
theorem strndup_spec (w : Nat) (heap : Option (Nat → Nat)) (str : Nat → Nat) (max : Nat)
    (hfit : strnlen str max + 1 < 2 ^ w) :
    (strndup w heap str max = none ↔ heap = none) ∧
    (∀ res, strndup w heap str max = some res →
      res = (List.range (strnlen str max)).map str ++ [0] ∧
      res.length = strnlen str max + 1 ∧
      (∀ i, i < strnlen str max → res[i]? = some (str i) ∧ str i ≠ 0) ∧
      res[strnlen str max]? = some 0) ∧
    (strnlen str max = 0 → heap ≠ none → strndup w heap str max = some [0]) ∧
    (∀ junk rest, 3 + 1 < 2 ^ w →
      strndup w (some junk) (cstr hello rest) 3 = some [104, 101, 108, 0] ∧
      strndup w (some junk) (cstr hi rest) 10 = some [104, 105, 0]) := by
  refine ⟨strndup_none w heap str max, ?_, ?_, ?_⟩
  · intro res hres
    cases heap with
    | none => simp [(strndup_none w none str max).2 rfl] at hres
    | some junk =>
      rw [strndup_some w junk str max hfit] at hres
      have hres2 := (Option.some.inj hres).symm
      subst hres2
      refine ⟨rfl, by simp, ?_, ?_⟩
      · intro i hi
        refine ⟨?_, strnlen_nonzero_below str max i hi⟩
        rw [List.getElem?_append_left (by simpa using hi)]
        simp [List.getElem?_map, List.getElem?_range hi]
      · rw [List.getElem?_append_right (by simp)]
        simp
  · intro h0 hh
    cases heap with
    | none => exact absurd rfl hh
    | some junk =>
      rw [strndup_some w junk str max hfit, h0]
      rfl
  · intro junk rest hw
    have e1 : strnlen (cstr hello rest) 3 = 3 := by
      simp [strnlen, memchr, memchr_from, cstr, hello]
    have e2 : strnlen (cstr hi rest) 10 = 2 := by
      simp [strnlen, memchr, memchr_from, cstr, hi]
    constructor
    · rw [strndup_some w junk _ 3 (by rw [e1]; exact hw), e1]
      simp [List.range, List.range.loop, cstr, hello]
    · rw [strndup_some w junk _ 10 (by rw [e2]; omega), e2]
      simp [List.range, List.range.loop, cstr, hi]

/-- The hypothesis of C9 holds for "hello" cut at 3 bytes with a 64-bit
`size_t`, where the result is the 4-byte block "hel". -/
theorem strndup_spec_witness :
    strnlen (cstr hello (fun _ => 255)) 3 + 1 < 2 ^ 64 ∧
    strndup 64 (some (fun _ => 170)) (cstr hello (fun _ => 255)) 3
      = some [104, 101, 108, 0] :=
  ⟨by decide,
   ((strndup_spec 64 (some (fun _ => 170)) (cstr hello (fun _ => 255)) 3 (by decide)).2.2.2
      (fun _ => 170) (fun _ => 255) (by decide)).1⟩

end Astra
